import Mathlib

/-!
Verification of the task-execution pipeline of the `api.agent.teamorange.dev`
webhook server: the two-stage guardrail classifier, the session store, the
execution orchestrator, the sandbox entrypoint's credential fallback and the
output parsers.  Every definition is a shallow embedding of the corresponding
TypeScript (or bash) source; external effects (clock, network, JSON library,
filesystem) are passed in as explicit parameters or modelled as state.
-/

set_option maxRecDepth 4096

namespace TeamOrange

/-! ## JavaScript character semantics

Character-level helpers mirroring the JS regex classes used by the sources:
`\w`, `\s`, `\d`, case-insensitive matching (ASCII plus the German umlauts that
occur in the patterns) and `String.prototype.trim`. -/

/-- Case folding as used by the `/i` regex flag, restricted to ASCII letters
plus the German umlauts occurring in the catalog. -/
def jsLower (c : Char) : Char :=
  if c.isUpper then c.toLower
  else if c = 'Ä' then 'ä'
  else if c = 'Ö' then 'ö'
  else if c = 'Ü' then 'ü'
  else c

/-- JS `\w`: `[A-Za-z0-9_]`. -/
def isWordChar (c : Char) : Bool :=
  (c.isUpper || c.isLower) || c.isDigit || c == '_'

/-- JS `\s` (whitespace class, also what `trim` strips). -/
def isSpaceJS (c : Char) : Bool :=
  c == ' ' || c == '\t' || c == '\n' || c == '\r' || c == '\x0b' || c == '\x0c' ||
  c == '\u00A0' || c == '\uFEFF' || c == '\u1680' ||
  ('\u2000' ≤ c && c ≤ '\u200A') || c == '\u2028' || c == '\u2029' ||
  c == '\u202F' || c == '\u205F' || c == '\u3000'

/-- JS `String.prototype.trim` on a character list. -/
def trimChars (cs : List Char) : List Char :=
  ((cs.dropWhile isSpaceJS).reverse.dropWhile isSpaceJS).reverse

/-- JS `String.prototype.trim`. -/
def jsTrim (s : String) : String :=
  String.mk (trimChars s.data)

/-! ## A small regex engine

Enough of JS regex syntax to express every literal pattern in the sources:
character classes, alternation, concatenation, star, the zero-width assertions
`\b`, `^`, `$`.  The matcher is a fueled backtracking matcher returning all
states after a match; `test` is a search from every start position. -/

inductive ClsItem where
  | single (c : Char)
  | range (lo hi : Char)
  | space
  | word
  | digit
deriving DecidableEq, Repr

def clsItemMatch : ClsItem → Char → Bool
  | .single a, c => c == a
  | .range lo hi, c => lo ≤ c && c ≤ hi
  | .space, c => isSpaceJS c
  | .word, c => isWordChar c
  | .digit, c => c.isDigit

inductive Regex where
  | eps
  | chr (c : Char)
  | cls (neg : Bool) (items : List ClsItem)
  | alt (a b : Regex)
  | cat (a b : Regex)
  | star (a : Regex)
  | bnd
  | bos
  | eos
deriving Repr

namespace Regex

def lit (s : String) : Regex :=
  (s.data.map Regex.chr).foldr Regex.cat Regex.eps

def cats (rs : List Regex) : Regex :=
  rs.foldr Regex.cat Regex.eps

def alts : List Regex → Regex
  | [] => Regex.cls false []
  | [r] => r
  | r :: rs => Regex.alt r (alts rs)

def opt (r : Regex) : Regex := Regex.alt r Regex.eps

def plus (r : Regex) : Regex := Regex.cat r (Regex.star r)

/-- Bounded repetition `r{n,m}`, unrolled. -/
def repRange (n m : Nat) (r : Regex) : Regex :=
  Regex.cat (cats (List.replicate n r)) (cats (List.replicate (m - n) (opt r)))

/-- JS `.` (no dotAll flag): any char but line terminators. -/
def dot : Regex :=
  Regex.cls true [.single '\n', .single '\r', .single '\u2028', .single '\u2029']

/-- JS `[\s\S]`: truly any char. -/
def anyc : Regex := Regex.cls true []

def ws : Regex := Regex.cls false [.space]
def wsP : Regex := plus ws
def wsS : Regex := Regex.star ws
def digP : Regex := plus (Regex.cls false [.digit])

def size : Regex → Nat
  | eps | chr _ | cls _ _ | bnd | bos | eos => 1
  | alt a b => size a + size b + 1
  | cat a b => size a + size b + 1
  | star a => size a + 1

end Regex

def isWordB : Option Char → Bool
  | some c => isWordChar c
  | none => false

/-- Backtracking matcher.  A state is the previous character (for `\b`/`^`)
paired with the remaining input; the result lists every state reachable by
matching `r`.  Star iterations that consume nothing are dropped (they do not
change the reachable states). -/
def mrun (fuel : Nat) (r : Regex) (prev : Option Char) (rest : List Char) :
    List (Option Char × List Char) :=
  match fuel with
  | 0 => []
  | fuel + 1 =>
    match r with
    | .eps => [(prev, rest)]
    | .chr c =>
      match rest with
      | [] => []
      | x :: xs => if x == c then [(some x, xs)] else []
    | .cls neg items =>
      match rest with
      | [] => []
      | x :: xs => if (items.any (fun i => clsItemMatch i x)) != neg then [(some x, xs)] else []
    | .alt a b => mrun fuel a prev rest ++ mrun fuel b prev rest
    | .cat a b => (mrun fuel a prev rest).flatMap (fun s => mrun fuel b s.1 s.2)
    | .star a =>
      (prev, rest) ::
        (mrun fuel a prev rest).flatMap
          (fun s => if s.2.length < rest.length then mrun fuel (.star a) s.1 s.2 else [])
    | .bnd => if isWordB prev != isWordB rest.head? then [(prev, rest)] else []
    | .bos => if prev.isNone then [(prev, rest)] else []
    | .eos => if rest.isEmpty then [(prev, rest)] else []

def bigFuel (r : Regex) (len : Nat) : Nat :=
  (r.size + 2) * (len + 2) + 64

/-- Search for a match from every start position (JS `RegExp.prototype.test`). -/
def rsearchFrom (r : Regex) (fuel : Nat) : Option Char → List Char → Bool
  | prev, [] => !(mrun fuel r prev []).isEmpty
  | prev, c :: cs => !(mrun fuel r prev (c :: cs)).isEmpty || rsearchFrom r fuel (some c) cs

/-- A JS regex literal: the pattern plus its `/i` flag. -/
structure JsRegex where
  re : Regex
  ci : Bool

/-- JS `regex.test(s)`.  Case-insensitive patterns are matched by folding the
input (the catalog's patterns are already lower case). -/
def jsTest (p : JsRegex) (s : String) : Bool :=
  let cs := if p.ci then s.data.map jsLower else s.data
  rsearchFrom p.re (bigFuel p.re cs.length) none cs

/-- A `/.../i` literal. -/
def ciRe (r : Regex) : JsRegex := ⟨r, true⟩

/-- A `/.../` literal (no flags). -/
def csRe (r : Regex) : JsRegex := ⟨r, false⟩

/-! ## Threat patterns (`src/guardrail/patterns.ts`)

`THREAT_PATTERNS`, `matchThreatPatterns` and `isObviouslySafe`, with each JS
regex literal transcribed into the `Regex` AST. -/

structure ThreatPattern where
  category : String
  severity : String
  explanation : String
  patterns : List JsRegex

open Regex in
def THREAT_PATTERNS : List ThreatPattern := [
  { category := "DESTRUCTIVE", severity := "high",
    explanation := "Destruktiver Befehl erkannt - Datenverlust möglich",
    patterns := [
      ciRe (cats [bnd, lit "rm", wsP, lit "-rf", bnd]),
      ciRe (cats [bnd, lit "rmdir", bnd, star dot, chr '/', wsS, eos]),
      ciRe (cats [bnd, lit "drop", wsP, alts [lit "database", lit "table", lit "schema"], bnd]),
      ciRe (cats [bnd, lit "truncate", wsP, lit "table", bnd]),
      ciRe (cats [bnd, lit "delete", wsP, lit "from", bnd, star dot,
        lit "where", wsP, chr '1', wsS, chr '=', wsS, chr '1']),
      ciRe (cats [bnd, lit "format", opt (alts [lit "iere", lit "ieren"]), wsP,
        opt (cats [lit "die", wsP]),
        alts [lit "festplatte", lit "disk", lit "laufwerk", lit "partition"]]),
      ciRe (cats [lit "lösch", opt (alts [lit "e", lit "en"]), wsP,
        alts [lit "alle", lit "sämtliche"], wsP,
        alts [lit "dateien", lit "daten", lit "files"]]),
      ciRe (cats [bnd, lit "entfern", opt (alts [lit "e", lit "en"]), wsP,
        alts [lit "alle", lit "sämtliche", lit "komplett"]]),
      ciRe (cats [bnd, lit "wipe", bnd]),
      ciRe (cats [bnd, lit "destroy", bnd]),
      ciRe (cats [bnd, lit "nuke", bnd])] },
  { category := "PROMPT_INJECTION", severity := "high",
    explanation := "Prompt Injection Versuch erkannt",
    patterns := [
      ciRe (cats [lit "ignor", alts [lit "e", lit "iere"], wsP,
        opt (cats [lit "alle", wsP]),
        alts [cats [lit "vorherige", opt (chr 'n')], cats [lit "bisherige", opt (chr 'n')],
          cats [lit "obige", opt (chr 'n')]], wsP,
        alts [cats [lit "anweisunge", opt (chr 'n')], cats [lit "instruction", opt (chr 's')],
          cats [lit "regel", opt (chr 'n')]]]),
      ciRe (cats [lit "vergiss", wsP, opt (cats [lit "alle", wsP]),
        alts [cats [lit "vorherige", opt (chr 'n')], cats [lit "bisherige", opt (chr 'n')]], wsP,
        alts [cats [lit "anweisunge", opt (chr 'n')], cats [lit "regel", opt (chr 'n')]]]),
      ciRe (cats [lit "du", wsP, lit "bist", wsP,
        alts [lit "jetzt", lit "nun", cats [lit "ab", wsP, lit "sofort"]], wsP,
        alts [lit "ein", lit "eine"]]),
      ciRe (cats [lit "neue", wsP, alts [lit "rolle", lit "identity", lit "identität"]]),
      ciRe (cats [bnd, lit "jailbreak", bnd]),
      ciRe (cats [bnd, lit "bypass", bnd, star dot, bnd,
        alts [cats [lit "restriction", opt (chr 's')],
          cats [lit "einschränkunge", opt (chr 'n')], cats [lit "regel", opt (chr 'n')]], bnd]),
      ciRe (cats [bnd, lit "developer", wsP, lit "mode", bnd]),
      ciRe (cats [bnd, lit "dan", wsP, lit "mode", bnd]),
      ciRe (cats [bnd, lit "system", wsP, lit "prompt", bnd]),
      ciRe (cats [bnd, lit "override", bnd, star dot, bnd, lit "instruction", opt (chr 's'), bnd]),
      ciRe (cats [lit "tu", wsP, lit "so", wsP, lit "als", wsP, alts [lit "ob", lit "wärst"]]),
      ciRe (cats [lit "stell", wsP, lit "dir", wsP, lit "vor", wsP, lit "du", wsP,
        alts [lit "bist", lit "wärst"]]),
      ciRe (cats [lit "admin", opt (Regex.cls false [.space, .single '-']),
        alts [lit "zugang", lit "access", lit "rechte", lit "modus"]]),
      ciRe (cats [bnd, lit "role", wsS, chr ':', wsS,
        alts [lit "system", lit "admin", lit "root"], bnd])] },
  { category := "COMPETENCE_EXCEEDED", severity := "medium",
    explanation := "Anfrage überschreitet Redakteur-Kompetenz",
    patterns := [
      ciRe (cats [alts [lit "änder", lit "ersetze", lit "modifiziere"], wsP,
        opt (cats [lit "das", wsP]),
        alts [cats [lit "komplett", opt (chr 'e')], cats [lit "gesamt", opt (chr 'e')],
          cats [lit "ganz", opt (chr 'e')]], wsP,
        alts [cats [lit "navigation", opt (chr 's'), lit "konzept"],
          lit "architektur", lit "design", lit "system"]]),
      ciRe (cats [bnd,
        alts [lit "redesign", lit "neugestaltung", cats [lit "komplett", wsP, lit "neu"]],
        bnd, star dot, bnd, alts [lit "website", lit "app", lit "system", lit "plattform"], bnd]),
      ciRe (cats [lit "entfern", opt (alts [lit "e", lit "en"]), wsP,
        opt (cats [lit "alle", wsP]),
        alts [cats [lit "menü", opt (chr 's')], lit "navigation", lit "sidebar"]]),
      ciRe (cats [alts [lit "server", lit "infrastruktur", lit "deployment"], wsS,
        opt (alts [lit "konfiguration", lit "config"]), wsS,
        alts [lit "ändern", lit "modifizieren", lit "anpassen"]]),
      ciRe (cats [bnd, alts [lit "refactor", lit "umstrukturier"], wsS,
        opt (cats [lit "das", wsP]),
        alts [cats [lit "gesamt", opt (chr 'e')], cats [lit "komplett", opt (chr 'e')],
          cats [lit "ganz", opt (chr 'e')]], bnd]),
      ciRe (cats [lit "datenbank", opt (Regex.cls false [.space, .single '-']),
        alts [lit "schema", lit "struktur", lit "migration"], wsS,
        alts [lit "ändern", lit "anpassen", lit "modifizieren"]]),
      ciRe (cats [alts [lit "api", lit "endpoint", lit "schnittstelle"], wsS,
        alts [lit "komplett", lit "ganz"], wsS,
        alts [lit "ändern", lit "umbauen", lit "ersetzen"]])] },
  { category := "FINANCIAL_RISK", severity := "high",
    explanation := "Finanzielle Transaktion erkannt - manuelle Bestätigung erforderlich",
    patterns := [
      ciRe (cats [lit "überweis", alts [lit "e", lit "en", lit "ung"], wsP, digP]),
      ciRe (cats [lit "transfer", opt (lit "iere"), wsP, digP, wsS,
        alts [lit "euro", lit "eur", chr '€', chr '$', lit "dollar"]]),
      ciRe (cats [alts [cats [lit "änder", opt (chr 'e')], lit "ändern"], wsP,
        opt (cats [lit "die", wsP]), lit "bankverbindung"]),
      ciRe (cats [bnd, alts [lit "iban", lit "bic", lit "konto"], wsS,
        alts [lit "ändern", lit "aktualisieren", lit "ersetzen"], bnd]),
      ciRe (cats [lit "zahlungs", alts [lit "daten", cats [lit "informatione", opt (chr 'n')]],
        wsS, alts [lit "ändern", lit "aktualisieren"]]),
      ciRe (cats [bnd, lit "paypal", bnd, star dot, bnd,
        alts [lit "senden", lit "überweisen", lit "transfer"], bnd]),
      ciRe (cats [bnd, lit "rechnung", bnd, star dot, bnd,
        alts [lit "bezahlen", lit "begleichen"], bnd, star dot, digP])] },
  { category := "SECURITY_RISK", severity := "high",
    explanation := "Sicherheitsrelevante Anfrage erkannt",
    patterns := [
      ciRe (cats [bnd, alts [lit "passwort", lit "password", lit "kennwort", lit "pwd"], wsS,
        alts [cats [lit "zeige", opt (chr 'n')], cats [lit "anzeige", opt (chr 'n')],
          cats [lit "ausgebe", opt (chr 'n')], cats [lit "aufliste", opt (chr 'n')]]]),
      ciRe (cats [bnd,
        alts [cats [lit "api", opt (Regex.cls false [.space, .single '-']), lit "key"],
          lit "token", lit "secret", lit "credential"], wsS,
        alts [cats [lit "zeige", opt (chr 'n')], cats [lit "anzeige", opt (chr 'n')],
          cats [lit "aufliste", opt (chr 'n')]]]),
      ciRe (cats [bnd, alts [lit "ssh", lit "private"],
        opt (Regex.cls false [.space, .single '-']), lit "key", bnd]),
      ciRe (cats [bnd, lit "auth", opt (alts [lit "entifizierung", lit "entication"]), wsS,
        alts [lit "deaktivier", lit "entfern", lit "abschalt"]]),
      ciRe (cats [bnd, lit "bypass", wsS, alts [lit "auth", lit "login", lit "security"], bnd]),
      ciRe (cats [chr '.', lit "env", wsS, opt (lit "datei"), wsS,
        alts [cats [lit "zeige", opt (chr 'n')], cats [lit "lese", opt (chr 'n')],
          cats [lit "ausgebe", opt (chr 'n')]]]),
      ciRe (cats [bnd, alts [lit "zugang", lit "access"], wsS,
        alts [cats [lit "für", wsP, lit "alle"], lit "öffentlich",
          cats [lit "ohne", wsP, alts [lit "passwort", lit "login"]]]]),
      ciRe (cats [bnd, lit "root", wsS, alts [lit "zugang", lit "access", lit "rechte"], bnd]),
      ciRe (cats [bnd, lit "sudo", bnd, star dot, bnd, lit "passwd", bnd])] }]

/-- Result shape of `matchThreatPatterns`. -/
structure PatternMatchResult where
  matched : Bool
  category : Option String
  severity : Option String
  explanation : Option String
  confidence : ℚ
deriving DecidableEq, Repr

/-- Embedding of `matchThreatPatterns`: first matching rule of the ordered catalog wins;
confidence is derived from the category's severity. -/
def matchThreatPatterns (prompt : String) : PatternMatchResult :=
  match THREAT_PATTERNS.find? (fun t => t.patterns.any (fun p => jsTest p prompt)) with
  | some t =>
    { matched := true, category := some t.category, severity := some t.severity,
      explanation := some t.explanation,
      confidence := if t.severity = "high" then 0.95 else if t.severity = "medium" then 0.8 else 0.6 }
  | none =>
    { matched := false, category := none, severity := none, explanation := none, confidence := 0 }

open Regex in
def safePatterns : List JsRegex := [
  ciRe (cats [bos, alts [lit "hallo", lit "hi",
    cats [lit "guten", wsP, alts [lit "tag", lit "morgen", lit "abend"]],
    lit "servus", lit "moin"]]),
  ciRe (cats [bos, alts [lit "wie", lit "was", lit "wer", lit "wann", lit "wo",
    lit "warum", lit "welche"], ws]),
  ciRe (cats [bos, alts [lit "danke", cats [lit "vielen", wsP, lit "dank"], lit "merci"]]),
  csRe (cats [chr '?', star (Regex.cls false [.space, .single '\n']), eos]),
  ciRe (cats [bos, alts [lit "zeig", lit "liste", lit "such", lit "find", lit "hol"], wsP,
    opt (cats [lit "mir", wsP]), alts [lit "die", lit "den", lit "das", lit "alle"]])]

/-- Embedding of `isObviouslySafe`: quick check for obvious safe requests. -/
def isObviouslySafe (prompt : String) : Bool :=
  safePatterns.any (fun p => jsTest p (jsTrim prompt))

/-! ## Guardrail analyzer (`src/guardrail/analyzer.ts`)

The staged decision protocol.  The wall clock (`durationMs`) is outside the
embedding; the AI stage's network call and the JSON library are parameters. -/

inductive GuardrailDecision where
  | APPROVED
  | BLOCKED
  | ESCALATE
deriving DecidableEq, Repr

inductive AnalysisMethod where
  | pattern
  | ai
  | hybrid
deriving DecidableEq, Repr

/-- Embedding of `GuardrailResult` (without the wall-clock `durationMs` field). -/
structure GuardrailResult where
  decision : GuardrailDecision
  reason : Option String
  explanation : String
  confidence : ℚ
  analysisMethod : AnalysisMethod
deriving DecidableEq, Repr

structure GuardrailConfig where
  useAiAnalysis : Bool
  patternConfidenceThreshold : ℚ
  aiModel : String
  aiTimeoutMs : Nat
deriving DecidableEq, Repr

def DEFAULT_CONFIG : GuardrailConfig :=
  { useAiAnalysis := true, patternConfidenceThreshold := 0.9,
    aiModel := "claude-3-5-haiku-20241022", aiTimeoutMs := 10000 }

/-- Substring positions: `isPreC n h` iff `n` is a leading prefix of `h`. -/
def isPreC : List Char → List Char → Bool
  | [], _ => true
  | _ :: _, [] => false
  | a :: as, b :: bs => a == b && isPreC as bs

/-- Index of the first occurrence of `needle`. -/
def firstSubIdx (needle : List Char) : List Char → Option Nat
  | [] => if needle.isEmpty then some 0 else none
  | c :: cs =>
    if isPreC needle (c :: cs) then some 0 else (firstSubIdx needle cs).map (· + 1)

/-- Index of the last occurrence of the character `c`. -/
def lastIdxOf (c : Char) : List Char → Option Nat
  | [] => none
  | x :: xs =>
    match lastIdxOf c xs with
    | some k => some (k + 1)
    | none => if x == c then some 0 else none

/-- The JS match `text.match(/\x7b[\s\S]*"decision"[\s\S]*\x7d/)`: leftmost
opening brace followed somewhere by a quoted `decision` key, extending
greedily to the last closing brace. -/
def jsonMatchDecision : List Char → Option (List Char)
  | [] => none
  | c :: cs =>
    if c == '\x7b' then
      match firstSubIdx "\"decision\"".data cs, lastIdxOf '\x7d' cs with
      | some j, some k =>
        if j + 10 ≤ k then some ('\x7b' :: cs.take (k + 1)) else jsonMatchDecision cs
      | _, _ => jsonMatchDecision cs
    else jsonMatchDecision cs

/-- Outcome of the single outbound network call made by the AI stage:
either an exception (API error or the 10s timeout rejection) or the text
block of the response. -/
inductive AICallOutcome where
  | failure
  | response (text : String)

/-- Shape produced by `JSON.parse` on the matched substring (fields absent or
of the wrong runtime type are `none`). -/
structure AIVerdictJson where
  decision : Option String
  reason : Option String
  explanation : Option String
  confidence : Option ℚ

/-- JS `a || b` for an optional string (empty string is falsy). -/
def jsOrS (o : Option String) (d : String) : String :=
  match o with
  | none => d
  | some s => if s = "" then d else s

/-- Embedding of `analyzeWithAI`: the AI-powered stage.  `clientAvailable` is whether an
API key is configured; `jsonParse` stands for `JSON.parse` (returning `none`
when it would throw); `outcome` is the network call's result.  Every failure
path of the source returns `null`. -/
def analyzeWithAI (clientAvailable : Bool) (outcome : AICallOutcome)
    (jsonParse : String → Option AIVerdictJson) : Option GuardrailResult :=
  if !clientAvailable then none
  else
    match outcome with
    | .failure => none
    | .response text =>
      match jsonMatchDecision text.data with
      | none => none
      | some sub =>
        match jsonParse (String.mk sub) with
        | none => none
        | some parsed =>
          some { decision := if parsed.decision = some "BLOCKED" then .BLOCKED else .APPROVED,
                 reason := parsed.reason,
                 explanation := jsOrS parsed.explanation "AI-Analyse durchgeführt",
                 confidence := parsed.confidence.getD 0.8,
                 analysisMethod := .ai }

/-- Embedding of `analyzeRequest`: the main guardrail entry point.  The AI stage's verdict
is abstracted as `ai : Option GuardrailResult` (what `analyzeWithAI` would
return); the second component records whether the AI stage was invoked. -/
def analyzeRequest (prompt : String) (cfg : GuardrailConfig)
    (ai : Option GuardrailResult) : GuardrailResult × Bool :=
  if isObviouslySafe prompt then
    ({ decision := .APPROVED, reason := none, explanation := "Anfrage als sicher erkannt",
       confidence := 0.85, analysisMethod := .pattern }, false)
  else
    let patternResult := matchThreatPatterns prompt
    if patternResult.matched ∧ cfg.patternConfidenceThreshold ≤ patternResult.confidence then
      ({ decision := .BLOCKED, reason := patternResult.category,
         explanation := patternResult.explanation.getD "Bedrohungsmuster erkannt",
         confidence := patternResult.confidence, analysisMethod := .pattern }, false)
    else
      match (if cfg.useAiAnalysis then ai else none) with
      | some aiResult =>
        ({ aiResult with
           analysisMethod := if patternResult.matched then .hybrid else .ai }, true)
      | none =>
        (if patternResult.matched then
          { decision := .APPROVED, reason := none,
            explanation := "Mögliche Bedrohung erkannt, aber unter Schwellwert - Ausführung erlaubt",
            confidence := 0.5, analysisMethod := .pattern }
        else
          { decision := .APPROVED, reason := none, explanation := "Keine Bedrohung erkannt",
            confidence := 0.7, analysisMethod := .pattern }, cfg.useAiAnalysis)

/-! ## Claims C1 - C3 -/

/-- Helper: a high-severity catalog match forces `matched = true` and
confidence `0.95`. -/
theorem matchThreat_high_confidence (prompt : String)
    (h : (matchThreatPatterns prompt).severity = some "high") :
    (matchThreatPatterns prompt).matched = true ∧
    (matchThreatPatterns prompt).confidence = 0.95 := by
  unfold matchThreatPatterns at h ⊢
  rcases hfind : THREAT_PATTERNS.find? (fun t => t.patterns.any (fun p => jsTest p prompt)) with
    _ | t
  · rw [hfind] at h
    simp at h
  · rw [hfind] at h ⊢
    simp only [Option.some.injEq] at h
    simp [h]

/-- C1 counterexample: the prompt `"was rm -rf /tmp"` matches the
high-severity DESTRUCTIVE pattern (confidence 0.95) yet `analyzeRequest`
returns APPROVED, because the obviously-safe pre-check (question-word start)
fires first. -/
theorem c1_high_pattern_counterexample :
    (matchThreatPatterns "was rm -rf /tmp").severity = some "high" ∧
    (matchThreatPatterns "was rm -rf /tmp").confidence = 0.95 ∧
    (analyzeRequest "was rm -rf /tmp" DEFAULT_CONFIG none).1.decision =
      GuardrailDecision.APPROVED ∧
    (analyzeRequest "was rm -rf /tmp" DEFAULT_CONFIG none).1.decision ≠
      GuardrailDecision.BLOCKED := by
  have hsev : (matchThreatPatterns "was rm -rf /tmp").severity = some "high" := by decide
  exact ⟨hsev, (matchThreat_high_confidence _ hsev).2, by decide, by decide⟩

/-- C1 (amended): for every input that matches a high-severity threat pattern
AND does not fire the obviously-safe pre-check, `analyzeRequest` (at the
default pattern threshold 0.9) returns BLOCKED with the matched category as
reason, confidence 0.95 ≥ 0.9 and method `pattern`, and the AI stage is never
invoked, whatever its availability or verdict. -/
theorem c1_high_severity_pattern_blocks_unless_obviously_safe
    (prompt : String) (cfg : GuardrailConfig) (ai : Option GuardrailResult)
    (hsafe : isObviouslySafe prompt = false)
    (hsev : (matchThreatPatterns prompt).severity = some "high")
    (hthr : cfg.patternConfidenceThreshold = 0.9) :
    (analyzeRequest prompt cfg ai).1.decision = GuardrailDecision.BLOCKED ∧
    (analyzeRequest prompt cfg ai).1.reason = (matchThreatPatterns prompt).category ∧
    (analyzeRequest prompt cfg ai).1.confidence = 0.95 ∧
    (0.9 : ℚ) ≤ (analyzeRequest prompt cfg ai).1.confidence ∧
    (analyzeRequest prompt cfg ai).1.analysisMethod = AnalysisMethod.pattern ∧
    (analyzeRequest prompt cfg ai).2 = false := by
  obtain ⟨hm, hc⟩ := matchThreat_high_confidence prompt hsev
  have hcond : (matchThreatPatterns prompt).matched = true ∧
      cfg.patternConfidenceThreshold ≤ (matchThreatPatterns prompt).confidence := by
    refine ⟨hm, ?_⟩
    rw [hthr, hc]
    norm_num
  have hres : analyzeRequest prompt cfg ai =
      ({ decision := GuardrailDecision.BLOCKED,
         reason := (matchThreatPatterns prompt).category,
         explanation := (matchThreatPatterns prompt).explanation.getD "Bedrohungsmuster erkannt",
         confidence := (matchThreatPatterns prompt).confidence,
         analysisMethod := AnalysisMethod.pattern }, false) := by
    unfold analyzeRequest
    simp only [hsafe, Bool.false_eq_true, if_false]
    rw [if_pos hcond]
  rw [hres]
  exact ⟨rfl, rfl, hc, by rw [hc]; norm_num, rfl, rfl⟩

/-- C1 witness: the spec's scenario `"rm -rf /tmp/x"` satisfies the amended
claim's hypotheses and is blocked. -/
theorem c1_high_severity_pattern_blocks_unless_obviously_safe_witness :
    isObviouslySafe "rm -rf /tmp/x" = false ∧
    (matchThreatPatterns "rm -rf /tmp/x").severity = some "high" ∧
    (analyzeRequest "rm -rf /tmp/x" DEFAULT_CONFIG none).1.decision =
      GuardrailDecision.BLOCKED :=
  ⟨by decide, by decide,
    (c1_high_severity_pattern_blocks_unless_obviously_safe "rm -rf /tmp/x" DEFAULT_CONFIG none
      (by decide) (by decide) rfl).1⟩

/-- C2: whenever the obviously-safe pre-check fires, `analyzeRequest` returns
APPROVED with confidence exactly 0.85 and method `pattern`, and the AI stage
is not invoked on that call, whatever the config and the AI stage would say. -/
theorem c2_obviously_safe_short_circuits
    (prompt : String) (cfg : GuardrailConfig) (ai : Option GuardrailResult)
    (hsafe : isObviouslySafe prompt = true) :
    analyzeRequest prompt cfg ai =
      ({ decision := GuardrailDecision.APPROVED, reason := none,
         explanation := "Anfrage als sicher erkannt",
         confidence := 0.85, analysisMethod := AnalysisMethod.pattern }, false) := by
  unfold analyzeRequest
  simp [hsafe]

/-- C2 witness: the spec's scenario, with AI enabled and an adversarial AI
verdict that would block; the pre-check still approves without consulting it. -/
theorem c2_obviously_safe_short_circuits_witness :
    isObviouslySafe "Wie lautet die Öffnungszeit?" = true ∧
    analyzeRequest "Wie lautet die Öffnungszeit?" DEFAULT_CONFIG
      (some { decision := GuardrailDecision.BLOCKED, reason := some "DESTRUCTIVE",
              explanation := "x", confidence := 1, analysisMethod := AnalysisMethod.ai }) =
      ({ decision := GuardrailDecision.APPROVED, reason := none,
         explanation := "Anfrage als sicher erkannt",
         confidence := 0.85, analysisMethod := AnalysisMethod.pattern }, false) :=
  ⟨by decide,
    c2_obviously_safe_short_circuits "Wie lautet die Öffnungszeit?" DEFAULT_CONFIG
      (some { decision := GuardrailDecision.BLOCKED, reason := some "DESTRUCTIVE",
              explanation := "x", confidence := 1, analysisMethod := AnalysisMethod.ai })
      (by decide)⟩

/-- C3: whenever the AI call times out or throws, or its response text has no
parseable verdict object, `analyzeWithAI` returns `none` (no verdict), never
an APPROVED or BLOCKED decision of its own. -/
theorem c3_ai_failure_yields_no_verdict
    (clientAvailable : Bool) (outcome : AICallOutcome)
    (jsonParse : String → Option AIVerdictJson)
    (h : outcome = AICallOutcome.failure ∨
      (∃ t, outcome = AICallOutcome.response t ∧ jsonMatchDecision t.data = none) ∨
      (∃ t sub, outcome = AICallOutcome.response t ∧ jsonMatchDecision t.data = some sub ∧
        jsonParse (String.mk sub) = none)) :
    analyzeWithAI clientAvailable outcome jsonParse = none := by
  unfold analyzeWithAI
  cases clientAvailable with
  | false => simp
  | true =>
    rcases h with h | ⟨t, ht, hm⟩ | ⟨t, sub, ht, hm, hp⟩
    · subst h; simp
    · subst ht; simp [hm]
    · subst ht; simp [hm, hp]

/-- C3 witness: a response carrying no verdict object yields no verdict. -/
theorem c3_ai_failure_yields_no_verdict_witness :
    analyzeWithAI true (AICallOutcome.response "I refuse to answer.")
      (fun _ => none) = none :=
  c3_ai_failure_yields_no_verdict true (AICallOutcome.response "I refuse to answer.")
    (fun _ => none) (Or.inr (Or.inl ⟨"I refuse to answer.", rfl, by decide⟩))

/-! ## Placeholder resolution (`src/execution/unified-executor.ts`)

`resolveEnvValue` resolves whole-value `$\x7bVAR\x7d` config placeholders
against the process environment; `resolvePromptPlaceholders` resolves
`\x7b\x7bVAR\x7d\x7d` placeholders inside prompt text.  `env` models
`process.env` lookup (`none` = variable not present). -/

/-- The anchored match `value.match(/^\$\\\x7b(\w+)\\\x7d$/)`: returns the
captured variable name when the whole value is a placeholder. -/
def envVarOfValue (cs : List Char) : Option (List Char) :=
  match cs with
  | '$' :: '\x7b' :: rest =>
    let w := rest.takeWhile isWordChar
    if w ≠ [] ∧ rest.drop w.length = ['\x7d'] then some w else none
  | _ => none

/-- Embedding of `resolveEnvValue`: a whole-value placeholder resolves to the variable's
value, to the empty string when the variable is unset (or empty, JS
falsiness); a non-placeholder value is returned as-is. -/
def resolveEnvValue (env : String → Option String) (value : String) : String :=
  match envVarOfValue value.data with
  | some w =>
    match env (String.mk w) with
    | none => ""
    | some v => if v = "" then "" else v
  | none => value

/-- Scanner for the global replace of `/\\\x7b\\\x7b(\w+)\\\x7d\\\x7d/g` with
the source's callback: a resolvable placeholder is replaced by the variable's
value; an unset (or empty, JS falsiness) variable keeps the original matched
text; everything else is copied. -/
def replacePromptVars (env : String → Option String) : List Char → List Char
  | [] => []
  | [c] => [c]
  | c1 :: c2 :: rest =>
    if c1 = '\x7b' ∧ c2 = '\x7b' then
      let w := rest.takeWhile isWordChar
      if w ≠ [] ∧ isPreC ['\x7d', '\x7d'] (rest.drop w.length) then
        (match env (String.mk w) with
          | none => '\x7b' :: '\x7b' :: (w ++ ['\x7d', '\x7d'])
          | some v =>
            if v = "" then '\x7b' :: '\x7b' :: (w ++ ['\x7d', '\x7d']) else v.data) ++
          replacePromptVars env ((rest.drop w.length).drop 2)
      else
        c1 :: replacePromptVars env (c2 :: rest)
    else
      c1 :: replacePromptVars env (c2 :: rest)
termination_by cs => cs.length
decreasing_by
  all_goals simp [List.length_drop]
  all_goals omega

/-- Embedding of `resolvePromptPlaceholders`. -/
def resolvePromptPlaceholders (env : String → Option String) (prompt : String) : String :=
  String.mk (replacePromptVars env prompt.data)

/-! ## Claim C9 -/

theorem takeWhile_all_append (p : Char → Bool) (w : List Char) (x : Char) (t : List Char)
    (hw : ∀ c ∈ w, p c = true) (hx : p x = false) :
    (w ++ x :: t).takeWhile p = w := by
  induction w with
  | nil => simp [List.takeWhile_cons, hx]
  | cons c cs ih =>
    have hc : p c = true := hw c (by simp)
    simp [List.takeWhile_cons, hc, ih (fun d hd => hw d (by simp [hd]))]

/-- The prompt scanner copies a brace-free prefix verbatim. -/
theorem replacePromptVars_append_no_brace (env : String → Option String)
    (p t : List Char) (hp : ∀ c ∈ p, c ≠ '\x7b') :
    replacePromptVars env (p ++ t) = p ++ replacePromptVars env t := by
  induction p with
  | nil => simp
  | cons c cs ih =>
    have hc : c ≠ '\x7b' := hp c (by simp)
    have ih2 := ih (fun d hd => hp d (by simp [hd]))
    rcases hczz : cs ++ t with _ | ⟨c2, rest⟩
    · have hcs : cs = [] ∧ t = [] := by
        constructor
        · cases cs with
          | nil => rfl
          | cons a as => simp at hczz
        · cases cs with
          | nil => simpa using hczz
          | cons a as => simp at hczz
      simp [hcs.1, hcs.2, replacePromptVars]
    · have : replacePromptVars env (c :: c2 :: rest) =
          c :: replacePromptVars env (c2 :: rest) := by
        rw [replacePromptVars]
        rw [if_neg (by intro h; exact hc h.1)]
      calc replacePromptVars env ((c :: cs) ++ t)
          = replacePromptVars env (c :: c2 :: rest) := by rw [List.cons_append, hczz]
        _ = c :: replacePromptVars env (c2 :: rest) := this
        _ = c :: replacePromptVars env (cs ++ t) := by rw [hczz]
        _ = (c :: cs) ++ replacePromptVars env t := by rw [ih2]; rfl

/-- The prompt scanner at a well-formed placeholder occurrence. -/
theorem replacePromptVars_at_placeholder (env : String → Option String)
    (w t : List Char) (hw : w ≠ []) (hword : ∀ c ∈ w, isWordChar c = true) :
    replacePromptVars env ('\x7b' :: '\x7b' :: (w ++ '\x7d' :: '\x7d' :: t)) =
      (match env (String.mk w) with
        | none => '\x7b' :: '\x7b' :: (w ++ ['\x7d', '\x7d'])
        | some v =>
          if v = "" then '\x7b' :: '\x7b' :: (w ++ ['\x7d', '\x7d']) else v.data) ++
      replacePromptVars env t := by
  have htake : (w ++ '\x7d' :: '\x7d' :: t).takeWhile isWordChar = w :=
    takeWhile_all_append isWordChar w '\x7d' ('\x7d' :: t) hword (by decide)
  have hdrop : (w ++ '\x7d' :: '\x7d' :: t).drop w.length = '\x7d' :: '\x7d' :: t :=
    List.drop_left w ('\x7d' :: '\x7d' :: t)
  rcases w with _ | ⟨a, as⟩
  · exact absurd rfl hw
  · rw [replacePromptVars]
    rw [if_pos ⟨rfl, rfl⟩]
    simp only [htake, hdrop]
    rw [if_pos ⟨hw, by simp [isPreC]⟩]
    simp

/-- Helper: `resolveEnvValue` on a whole-value placeholder reduces to the
environment lookup. -/
theorem resolveEnvValue_placeholder (env : String → Option String) (w : List Char)
    (hwne : w ≠ []) (hword : ∀ c ∈ w, isWordChar c = true) :
    resolveEnvValue env (String.mk ('$' :: '\x7b' :: (w ++ ['\x7d']))) =
      (match env (String.mk w) with
        | none => ""
        | some v => if v = "" then "" else v) := by
  have htake : (w ++ ['\x7d']).takeWhile isWordChar = w :=
    takeWhile_all_append isWordChar w '\x7d' [] hword (by decide)
  have hdrop : (w ++ ['\x7d']).drop w.length = ['\x7d'] := List.drop_left w ['\x7d']
  unfold resolveEnvValue envVarOfValue
  simp only [htake, hdrop]
  rw [if_pos ⟨hwne, trivial⟩]

/-- C9 counterexample: a variable that is present in the environment but set
to the empty string.  The claim's final clause says both resolvers substitute
the value of a set variable, but `resolvePromptPlaceholders` leaves the
placeholder literally in place for an empty-valued variable (JS falsiness),
so the result differs from substituting its (empty) value. -/
theorem c9_empty_env_var_counterexample :
    (fun v => if v = "VAR" then some "" else none : String → Option String) "VAR" = some "" ∧
    resolveEnvValue (fun v => if v = "VAR" then some "" else none)
      "$\x7bVAR\x7d" = "" ∧
    resolvePromptPlaceholders (fun v => if v = "VAR" then some "" else none)
      "\x7b\x7bVAR\x7d\x7d" = "\x7b\x7bVAR\x7d\x7d" ∧
    ("\x7b\x7bVAR\x7d\x7d" : String) ≠ "" := by
  refine ⟨by simp, ?_, ?_, by decide⟩
  · have h := resolveEnvValue_placeholder (fun v => if v = "VAR" then some "" else none)
      ['V', 'A', 'R'] (by decide) (by decide)
    simpa using h
  · have h := replacePromptVars_at_placeholder (fun v => if v = "VAR" then some "" else none)
      ['V', 'A', 'R'] [] (by decide) (by decide)
    unfold resolvePromptPlaceholders
    have hdata : ("\x7b\x7bVAR\x7d\x7d" : String).data =
        '\x7b' :: '\x7b' :: (['V', 'A', 'R'] ++ '\x7d' :: '\x7d' :: []) := rfl
    rw [hdata, h]
    simp [replacePromptVars]

/-- C9 (amended): config placeholders `$\x7bVAR\x7d` resolve to the empty
string when VAR is unset (or set to the empty string, which JS falsiness
treats as unset), and to its value when VAR is set non-empty; prompt
placeholders `\x7b\x7bVAR\x7d\x7d` are left literally in place when VAR is
unset or empty, and substituted when VAR is set non-empty.  This is the
claim's asymmetry, with the empty-string environment value grouped with
"unset" (forced by the counterexample). -/
theorem c9_placeholder_asymmetry_amended
    (env : String → Option String) (w : List Char) (pre suf : String)
    (hwne : w ≠ []) (hword : ∀ c ∈ w, isWordChar c = true)
    (hpre : ∀ c ∈ pre.data, c ≠ '\x7b') :
    ((env (String.mk w) = none ∨ env (String.mk w) = some "") →
      resolveEnvValue env (String.mk ('$' :: '\x7b' :: (w ++ ['\x7d']))) = "" ∧
      resolvePromptPlaceholders env
          (pre ++ String.mk ('\x7b' :: '\x7b' :: (w ++ ['\x7d', '\x7d'])) ++ suf) =
        pre ++ String.mk ('\x7b' :: '\x7b' :: (w ++ ['\x7d', '\x7d'])) ++
          resolvePromptPlaceholders env suf) ∧
    (∀ v : String, env (String.mk w) = some v → v ≠ "" →
      resolveEnvValue env (String.mk ('$' :: '\x7b' :: (w ++ ['\x7d']))) = v ∧
      resolvePromptPlaceholders env
          (pre ++ String.mk ('\x7b' :: '\x7b' :: (w ++ ['\x7d', '\x7d'])) ++ suf) =
        pre ++ v ++ resolvePromptPlaceholders env suf) := by
  have hbig : (pre ++ String.mk ('\x7b' :: '\x7b' :: (w ++ ['\x7d', '\x7d'])) ++ suf).data =
      pre.data ++ ('\x7b' :: '\x7b' :: (w ++ '\x7d' :: '\x7d' :: suf.data)) := by
    show pre.data ++ ('\x7b' :: '\x7b' :: (w ++ ['\x7d', '\x7d'])) ++ suf.data = _
    simp
  have hscan : replacePromptVars env
      (pre.data ++ ('\x7b' :: '\x7b' :: (w ++ '\x7d' :: '\x7d' :: suf.data))) =
      pre.data ++
        ((match env (String.mk w) with
          | none => '\x7b' :: '\x7b' :: (w ++ ['\x7d', '\x7d'])
          | some v =>
            if v = "" then '\x7b' :: '\x7b' :: (w ++ ['\x7d', '\x7d']) else v.data) ++
          replacePromptVars env suf.data) := by
    rw [replacePromptVars_append_no_brace env pre.data _ hpre,
      replacePromptVars_at_placeholder env w suf.data hwne hword]
  constructor
  · intro hunset
    constructor
    · rw [resolveEnvValue_placeholder env w hwne hword]
      rcases hunset with h | h <;> simp [h]
    · apply String.ext
      show replacePromptVars env (pre ++ _ ++ suf).data = _
      rw [hbig, hscan]
      have hmatch : (match env (String.mk w) with
          | none => '\x7b' :: '\x7b' :: (w ++ ['\x7d', '\x7d'])
          | some v =>
            if v = "" then '\x7b' :: '\x7b' :: (w ++ ['\x7d', '\x7d']) else v.data) =
          '\x7b' :: '\x7b' :: (w ++ ['\x7d', '\x7d']) := by
        rcases hunset with h | h <;> simp [h]
      rw [hmatch]
      simp [resolvePromptPlaceholders]
  · intro v hv hvne
    constructor
    · rw [resolveEnvValue_placeholder env w hwne hword, hv]
      simp [hvne]
    · apply String.ext
      show replacePromptVars env (pre ++ _ ++ suf).data = _
      rw [hbig, hscan, hv]
      simp only [if_neg hvne]
      simp [resolvePromptPlaceholders]

/-- C9 witness: a concrete environment with an unset variable and a variable
set to a non-empty value, exercising both halves of the amended claim. -/
theorem c9_placeholder_asymmetry_amended_witness :
    resolveEnvValue (fun v => if v = "NAME" then some "Alice" else none)
      "$\x7bGONE\x7d" = "" ∧
    resolvePromptPlaceholders (fun v => if v = "NAME" then some "Alice" else none)
      "Hi \x7b\x7bGONE\x7d\x7d!" = "Hi \x7b\x7bGONE\x7d\x7d!" ∧
    resolveEnvValue (fun v => if v = "NAME" then some "Alice" else none)
      "$\x7bNAME\x7d" = "Alice" ∧
    resolvePromptPlaceholders (fun v => if v = "NAME" then some "Alice" else none)
      "Hi \x7b\x7bNAME\x7d\x7d!" = "Hi Alice!" := by
  have h1 := (c9_placeholder_asymmetry_amended
      (fun v => if v = "NAME" then some "Alice" else none)
      ['G', 'O', 'N', 'E'] "Hi " "!" (by decide) (by decide) (by decide)).1
      (Or.inl (by simp))
  have h2 := (c9_placeholder_asymmetry_amended
      (fun v => if v = "NAME" then some "Alice" else none)
      ['N', 'A', 'M', 'E'] "Hi " "!" (by decide) (by decide) (by decide)).2
      "Alice" (by simp) (by simp)
  have hsuf : resolvePromptPlaceholders
      (fun v => if v = "NAME" then some "Alice" else none) "!" = "!" := by
    simp [resolvePromptPlaceholders, replacePromptVars]
  refine ⟨h1.1, ?_, h2.1, ?_⟩
  · have := h1.2
    rw [hsuf] at this
    exact this
  · have := h2.2
    rw [hsuf] at this
    exact this

/-! ## Output parsing (`src/execution/unified-executor.ts`)

`stripDockerStreamHeaders`, `extractAuthMethod`, `parseAgentOutput`,
`parseSdkOutput` and `formatModelName`.  `JSON.parse` is a parameter
(returning `none` where it would throw). -/

/-- JS `split('\n')`. -/
def splitNl : List Char → List (List Char)
  | [] => [[]]
  | c :: cs =>
    match splitNl cs with
    | [] => if c = '\n' then [[], []] else [[c]]
    | l :: ls => if c = '\n' then [] :: l :: ls else (c :: l) :: ls

/-- JS `join('\n')`. -/
def joinNl : List (List Char) → List Char
  | [] => []
  | [l] => l
  | l :: ls => l ++ '\n' :: joinNl ls

/-- The class `[\x00-\x08\x0B\x0C\x0E-\x1F]` of docker stream-framing bytes. -/
def isCtlHeader (c : Char) : Bool :=
  (c ≤ '\x08') || c == '\x0b' || c == '\x0c' || ('\x0e' ≤ c && c ≤ '\x1f')

/-- Embedding of `stripDockerStreamHeaders`: per line, drop the leading run of framing
bytes (the anchored `^[...]+` replace). -/
def stripDockerStreamHeaders (output : String) : String :=
  String.mk (joinNl ((splitNl output.data).map (fun l => l.dropWhile isCtlHeader)))

/-- Leftmost occurrence of `[AUTH_METHOD:oauth]` or `[AUTH_METHOD:api_key]`. -/
def scanAuthMethod : List Char → Option String
  | [] => none
  | c :: cs =>
    if isPreC "[AUTH_METHOD:oauth]".data (c :: cs) then some "oauth"
    else if isPreC "[AUTH_METHOD:api_key]".data (c :: cs) then some "api_key"
    else scanAuthMethod cs

/-- Embedding of `extractAuthMethod`. -/
def extractAuthMethod (output : String) : Option String :=
  scanAuthMethod output.data

/-- JS `s.slice(-n)`. -/
def jsSliceFromEnd (n : Nat) (s : String) : String :=
  String.mk (s.data.drop (s.data.length - n))

/-- JS `s.slice(0, n)`. -/
def jsSliceTo (n : Nat) (s : String) : String :=
  String.mk (s.data.take n)

/-- JS `s || d` for a plain string (empty is falsy). -/
def jsOrSS (s d : String) : String :=
  if s = "" then d else s

def containsSub (needle cs : List Char) : Bool :=
  (firstSubIdx needle cs).isSome

/-- JS `s.includes(needle)`. -/
def jsIncludes (needle s : String) : Bool :=
  containsSub needle.data s.data

/-- The match `cleanOutput.match(/\x7b"type":"result"[\s\S]*\x7d/)`: from the
first occurrence of the literal prefix, extending greedily to the last
closing brace. -/
def resultJsonCandidate (cs : List Char) : Option (List Char) :=
  match firstSubIdx "\x7b\"type\":\"result\"".data cs, lastIdxOf '\x7d' cs with
  | some i, some k => if i + 16 ≤ k then some ((cs.drop i).take (k + 1 - i)) else none
  | _, _ => none

/-- Embedding of `formatModelName`. -/
def formatModelName (modelId : String) : String :=
  if jsIncludes "opus" modelId then "Opus 4.5"
  else if jsIncludes "sonnet" modelId then "Sonnet 4"
  else if jsIncludes "haiku" modelId then "Haiku 4.5"
  else modelId

/-- The model-name collection loop over `Object.keys(parsed.modelUsage)`. -/
def collectModels (keys : List String) : List String :=
  keys.foldl
    (fun acc modelId =>
      let friendlyName := formatModelName modelId
      if friendlyName ≠ "" ∧ friendlyName ∉ acc then acc ++ [friendlyName] else acc)
    []

def isLowerHexDigit (c : Char) : Bool :=
  ('a' ≤ c && c ≤ 'f') || c.isDigit

/-- The match `output.match(/\[main ([a-f0-9]\x7b7,40\x7d)\]/)`: captured
commit hash of the first viable occurrence. -/
def scanCommitHash : List Char → Option (List Char)
  | [] => none
  | c :: cs =>
    if isPreC "[main ".data (c :: cs) then
      let after := (c :: cs).drop 6
      let run := after.takeWhile isLowerHexDigit
      if 7 ≤ run.length ∧ run.length ≤ 40 ∧ (after.drop run.length).head? = some ']' then
        some run
      else scanCommitHash cs
    else scanCommitHash cs

/-- JS `.` as a Bool predicate. -/
def isDotChar (c : Char) : Bool :=
  !(c == '\n' || c == '\r' || c == '\u2028' || c == '\u2029')

/-- One attempted match of `/(?:create|modify|delete) mode \d+ (.+)/` at the
head of `l`; returns the capture and the number of consumed characters. -/
def tryFileModeAt (l : List Char) : Option (List Char × Nat) :=
  let kw : Option Nat :=
    if isPreC "create mode ".data l then some 12
    else if isPreC "modify mode ".data l then some 12
    else if isPreC "delete mode ".data l then some 12
    else none
  match kw with
  | none => none
  | some n =>
    let after := l.drop n
    let ds := after.takeWhile Char.isDigit
    if ds ≠ [] ∧ (after.drop ds.length).head? = some ' ' then
      let cap := ((after.drop ds.length).drop 1).takeWhile isDotChar
      if cap ≠ [] then some (cap, n + ds.length + 1 + cap.length) else none
    else none

/-- Embedding of `matchAll` for the file-mode pattern (fueled scan; matches are
non-overlapping, scanning resumes after each match). -/
def scanFileModesF (fuel : Nat) : List Char → List (List Char)
  | [] => []
  | c :: cs =>
    match fuel with
    | 0 => []
    | fuel + 1 =>
      match tryFileModeAt (c :: cs) with
      | some (cap, consumed) => cap :: scanFileModesF fuel ((c :: cs).drop consumed)
      | none => scanFileModesF fuel cs

def scanFileModes (cs : List Char) : List (List Char) :=
  scanFileModesF (cs.length + 1) cs

/-- Shape produced by `JSON.parse` on the agent result candidate: the fields
`parseAgentOutput` reads, `none`/`[]` when absent or of the wrong runtime
type. -/
structure AgentResultJson where
  type : Option String
  result : Option String
  modelUsageKeys : List String

/-- Embedding of `ExecutionResult` (`src/execution/types.ts`), restricted to the fields
the embedded code paths produce. -/
structure ExecutionResult where
  success : Bool
  summary : String
  filesModified : List String
  commitHash : Option String := none
  error : Option String := none
  modelsUsed : Option (List String) := none
  authMethod : Option String := none
  rawOutput : Option String := none
deriving DecidableEq, Repr

/-- Embedding of `parseAgentOutput` (legacy image parser). -/
def parseAgentOutput (jsonParse : String → Option AgentResultJson)
    (output : String) : ExecutionResult :=
  let cleanOutput := stripDockerStreamHeaders output
  let authMethod := extractAuthMethod output
  let fallback : ExecutionResult :=
    let lines := (splitNl cleanOutput.data).filter (fun l => !(trimChars l).isEmpty)
    let responseLines := lines.filter (fun l =>
      !(isPreC ['['] l) && !(containsSub "→".data l) &&
      !(containsSub "Setting up Claude".data l) && !(containsSub "Credentials copied".data l))
    { success := true,
      summary := jsOrSS (jsSliceFromEnd 3000 (String.mk (joinNl responseLines)))
        "Aufgabe abgeschlossen",
      filesModified := [],
      authMethod := authMethod,
      rawOutput := some (jsSliceFromEnd 5000 output) }
  match resultJsonCandidate cleanOutput.data with
  | none => fallback
  | some jstr =>
    match jsonParse (String.mk jstr) with
    | none => fallback
    | some parsed =>
      let modelsUsed := collectModels parsed.modelUsageKeys
      if parsed.type = some "result" ∧ parsed.result.isSome then
        { success := true,
          summary := jsSliceTo 3000 (parsed.result.getD ""),
          filesModified := (scanFileModes output.data).map String.mk,
          commitHash := (scanCommitHash output.data).map String.mk,
          modelsUsed := if modelsUsed.length > 0 then some modelsUsed else none,
          authMethod := authMethod,
          rawOutput := some (jsSliceFromEnd 5000 output) }
      else fallback

/-- Embedding of `matchAll` for `/\x7b[^\x7b\x7d]*"success"[^\x7b\x7d]*\x7d/g` (fueled
scan). -/
def sdkJsonMatchesF (fuel : Nat) : List Char → List (List Char)
  | [] => []
  | c :: cs =>
    match fuel with
    | 0 => []
    | fuel + 1 =>
      if c = '\x7b' then
        let inner := cs.takeWhile (fun d => !(d == '\x7b' || d == '\x7d'))
        if (cs.drop inner.length).head? = some '\x7d' ∧ containsSub "\"success\"".data inner then
          ('\x7b' :: (inner ++ ['\x7d'])) :: sdkJsonMatchesF fuel ((cs.drop inner.length).drop 1)
        else sdkJsonMatchesF fuel cs
      else sdkJsonMatchesF fuel cs

def sdkJsonMatches (cs : List Char) : List (List Char) :=
  sdkJsonMatchesF (cs.length + 1) cs

/-- Shape produced by `JSON.parse` on an SDK result candidate. -/
structure SdkTaskResultJson where
  success : Bool
  output : Option String
  error : Option String

/-- Embedding of `parseSdkOutput` (SDK image parser). -/
def parseSdkOutput (jsonParse : String → Option SdkTaskResultJson)
    (output : String) : ExecutionResult :=
  let cleanOutput := stripDockerStreamHeaders output
  let fallback : ExecutionResult :=
    { success := true,
      summary := jsOrSS (jsSliceFromEnd 3000 cleanOutput) "Task completed",
      filesModified := [],
      authMethod := some "api_key",
      rawOutput := some (jsSliceFromEnd 5000 cleanOutput) }
  match (sdkJsonMatches cleanOutput.data).getLast? with
  | none => fallback
  | some lastJson =>
    match jsonParse (String.mk lastJson) with
    | none => fallback
    | some parsed =>
      { success := parsed.success,
        summary := jsOrS parsed.output (jsOrS parsed.error "Task completed"),
        filesModified := [],
        authMethod := some "api_key",
        rawOutput := some (jsSliceFromEnd 5000 cleanOutput) }

/-! ## Claim C6 -/

/-- C6: on a zero-exit run whose output contains no locatable structured
result object — or whose located object fails to parse (or, for the legacy
parser, lacks the expected `type`/`result` shape) — both parsers return
`success := true` with the noise-filtered text tail of the output as summary
(for the legacy parser: non-empty lines minus SCM/credential-banner noise;
for the SDK parser: the stream-stripped tail), and never a failure. -/
theorem c6_parsers_degrade_to_text_summary
    (parseA : String → Option AgentResultJson) (parseS : String → Option SdkTaskResultJson)
    (output : String)
    (hA : resultJsonCandidate (stripDockerStreamHeaders output).data = none ∨
      (∃ j, resultJsonCandidate (stripDockerStreamHeaders output).data = some j ∧
        (parseA (String.mk j) = none ∨
          ∃ p, parseA (String.mk j) = some p ∧
            ¬(p.type = some "result" ∧ p.result.isSome))))
    (hS : (sdkJsonMatches (stripDockerStreamHeaders output).data).getLast? = none ∨
      (∃ j, (sdkJsonMatches (stripDockerStreamHeaders output).data).getLast? = some j ∧
        parseS (String.mk j) = none)) :
    parseAgentOutput parseA output =
      { success := true,
        summary := jsOrSS (jsSliceFromEnd 3000 (String.mk (joinNl
            (((splitNl (stripDockerStreamHeaders output).data).filter
              (fun l => !(trimChars l).isEmpty)).filter (fun l =>
                !(isPreC ['['] l) && !(containsSub "→".data l) &&
                !(containsSub "Setting up Claude".data l) &&
                !(containsSub "Credentials copied".data l))))))
          "Aufgabe abgeschlossen",
        filesModified := [],
        authMethod := extractAuthMethod output,
        rawOutput := some (jsSliceFromEnd 5000 output) } ∧
    parseSdkOutput parseS output =
      { success := true,
        summary := jsOrSS (jsSliceFromEnd 3000 (stripDockerStreamHeaders output))
          "Task completed",
        filesModified := [],
        authMethod := some "api_key",
        rawOutput := some (jsSliceFromEnd 5000 (stripDockerStreamHeaders output)) } := by
  constructor
  · rcases hA with h | ⟨j, hj, hcase⟩
    · simp only [parseAgentOutput, h]
    · rcases hcase with hp | ⟨p, hp, hnot⟩
      · simp only [parseAgentOutput, hj, hp]
      · simp only [parseAgentOutput, hj, hp, if_neg hnot]
  · rcases hS with h | ⟨j, hj, hp⟩
    · simp only [parseSdkOutput, h]
    · simp only [parseSdkOutput, hj, hp]

/-- C6 witness: an output with banner noise and no structured object, parsed
with a `JSON.parse` that never succeeds. -/
theorem c6_parsers_degrade_to_text_summary_witness :
    parseAgentOutput (fun _ => none)
        "Setting up Claude Code credentials...\nHello world\n" =
      { success := true, summary := "Hello world", filesModified := [],
        authMethod := none,
        rawOutput := some "Setting up Claude Code credentials...\nHello world\n" } ∧
    parseSdkOutput (fun _ => none)
        "Setting up Claude Code credentials...\nHello world\n" =
      { success := true,
        summary := "Setting up Claude Code credentials...\nHello world\n",
        filesModified := [], authMethod := some "api_key",
        rawOutput := some "Setting up Claude Code credentials...\nHello world\n" } := by
  have h := c6_parsers_degrade_to_text_summary (fun _ => none) (fun _ => none)
    "Setting up Claude Code credentials...\nHello world\n"
    (Or.inl (by decide)) (Or.inl (by decide))
  refine ⟨?_, ?_⟩
  · rw [h.1]
    decide
  · rw [h.2]
    decide

/-! ## Sandbox entrypoint credential fallback (`docker` entrypoint script)

`run_claude_with_fallback`: the first attempt uses the OAuth credential; on a
non-zero exit or an authentication-failure signature in the captured output,
and with `ANTHROPIC_API_KEY` configured, the command is rerun once with the
API key and the emitted auth-method marker records the fallback.  The two
`claude` invocations are modelled as attempt results. -/

/-- The signature check
`grep -qi "unauthorized\|401\|authentication\|login required\|token expired"`
on the captured output. -/
def authFailureSignature (out : String) : Bool :=
  let l := out.data.map jsLower
  containsSub "unauthorized".data l || containsSub "401".data l ||
  containsSub "authentication".data l || containsSub "login required".data l ||
  containsSub "token expired".data l

/-- Result of one `claude -p - …` invocation: exit code and captured
stdout+stderr (the `OUTPUT_FILE` contents). -/
structure ClaudeAttempt where
  exitCode : Int
  output : String

/-- What the shell function contributes to the container's stdout, plus its
final state. -/
structure ScriptRunResult where
  authMethod : String
  stdout : String
  exitCode : Int
deriving DecidableEq, Repr

/-- Embedding of `run_claude_with_fallback`. -/
def run_claude_with_fallback (apiKeyConfigured : Bool)
    (first second : ClaudeAttempt) : ScriptRunResult :=
  let oauthFailed := first.exitCode != 0 || authFailureSignature first.output
  if oauthFailed && apiKeyConfigured then
    { authMethod := "api_key",
      stdout := "[AUTH] Attempting OAuth authentication...\n" ++
        "[AUTH] OAuth failed, falling back to API key...\n" ++
        "[AUTH_METHOD:api_key]\n" ++ second.output,
      exitCode := second.exitCode }
  else
    { authMethod := "oauth",
      stdout := "[AUTH] Attempting OAuth authentication...\n" ++
        "[AUTH_METHOD:oauth]\n" ++ first.output,
      exitCode := first.exitCode }

/-! ## Claim C5 -/

/-- Helper: every branch of `parseAgentOutput` carries the extracted auth
method into the result. -/
theorem parseAgentOutput_authMethod (jsonParse : String → Option AgentResultJson)
    (output : String) :
    (parseAgentOutput jsonParse output).authMethod = extractAuthMethod output := by
  unfold parseAgentOutput
  dsimp only
  split <;> (try split) <;> (try split) <;> rfl

/-- C5: when the first (OAuth) attempt fails — non-zero exit or an
auth-failure signature in its output — and the API key is configured and the
retry succeeds, the run's stdout carries the `[AUTH_METHOD:api_key]` marker,
and the parsed result's `authMethod` is `api_key`, not `oauth`, whatever the
second attempt printed. -/
theorem c5_auth_fallback_records_api_key
    (first second : ClaudeAttempt) (jsonParse : String → Option AgentResultJson)
    (hfail : first.exitCode ≠ 0 ∨ authFailureSignature first.output = true)
    (hsucc : second.exitCode = 0) :
    (run_claude_with_fallback true first second).authMethod = "api_key" ∧
    jsIncludes "[AUTH_METHOD:api_key]"
      (run_claude_with_fallback true first second).stdout = true ∧
    extractAuthMethod (run_claude_with_fallback true first second).stdout =
      some "api_key" ∧
    (parseAgentOutput jsonParse
      (run_claude_with_fallback true first second).stdout).authMethod = some "api_key" ∧
    some "api_key" ≠ (some "oauth" : Option String) ∧
    (run_claude_with_fallback true first second).exitCode = 0 := by
  have hcond : (first.exitCode != 0 || authFailureSignature first.output) = true := by
    rcases hfail with h | h
    · simp [h]
    · simp [h]
  have hrun : run_claude_with_fallback true first second =
      { authMethod := "api_key",
        stdout := "[AUTH] Attempting OAuth authentication...\n" ++
          "[AUTH] OAuth failed, falling back to API key...\n" ++
          "[AUTH_METHOD:api_key]\n" ++ second.output,
        exitCode := second.exitCode } := by
    unfold run_claude_with_fallback
    simp [hcond]
  rw [hrun]
  refine ⟨rfl, ?_, ?_, ?_, by simp, hsucc⟩
  · rfl
  · rfl
  · rw [parseAgentOutput_authMethod]
    rfl

/-- C5 witness: a 401 on the first attempt, a clean second attempt. -/
theorem c5_auth_fallback_records_api_key_witness :
    (run_claude_with_fallback true ⟨1, "Error: 401 unauthorized"⟩ ⟨0, "done"⟩).authMethod =
      "api_key" ∧
    extractAuthMethod
      (run_claude_with_fallback true ⟨1, "Error: 401 unauthorized"⟩ ⟨0, "done"⟩).stdout =
      some "api_key" :=
  have h := c5_auth_fallback_records_api_key ⟨1, "Error: 401 unauthorized"⟩ ⟨0, "done"⟩
    (fun _ => none) (Or.inl (by decide)) rfl
  ⟨h.1, h.2.2.1⟩

/-! ## Session store (`src/session/manager.ts`)

Sessions, the durable index (a JSON file, modelled as the `index` component of
the state), the session directory layout, and the operations
`createSession` / `findSessionByMessageId` / `findSessionById` /
`addMessageToSession` / `getOrCreateSession`.  `Date` timestamps are `Nat`;
the id generator's `randomBytes(3)` is three explicit byte parameters. -/

structure SessionThread where
  originalMessageId : String
  messageIds : List String
  originalSubject : String
deriving DecidableEq, Repr

structure Session where
  id : String
  agentId : String
  thread : SessionThread
  sender : String
  createdAt : Nat
  lastActivityAt : Nat
  claudeSessionId : Option String := none
deriving DecidableEq, Repr

/-- Embedding of `SessionIndex`, with JS objects as insertion-ordered association lists. -/
structure SessionIndex where
  byMessageId : List (String × String)
  sessions : List (String × Session)
deriving DecidableEq, Repr

/-- JS object property write: update in place, else append. -/
def setA {α : Type} (k : String) (v : α) : List (String × α) → List (String × α)
  | [] => [(k, v)]
  | (k0, v0) :: rest => if k0 = k then (k, v) :: rest else (k0, v0) :: setA k v rest

/-- JS object property read. -/
def getA {α : Type} (k : String) : List (String × α) → Option α
  | [] => none
  | (k0, v0) :: rest => if k0 = k then some v0 else getA k rest

def SESSION_PREFIX : String := "to"

def hexChars : List Char := "0123456789abcdef".data

def hexDigitChar (n : Nat) : Char := hexChars.getD n '0'

/-- One byte of the hex rendering of `Buffer.toString`. -/
def byteToHex (b : Nat) : List Char := [hexDigitChar (b / 16), hexDigitChar (b % 16)]

/-- Embedding of `generateSessionId`: three random bytes rendered as hex. -/
def generateSessionId (b0 b1 b2 : Fin 256) : String :=
  String.mk (byteToHex b0.val ++ byteToHex b1.val ++ byteToHex b2.val)

/-- Embedding of `[a-f0-9]` with the `/i` flag. -/
def isHexCi (c : Char) : Bool :=
  ('a' ≤ c && c ≤ 'f') || ('A' ≤ c && c ≤ 'F') || c.isDigit

/-- Six case-insensitive hex digits followed by `]`; captures the digits. -/
def hex6After (l : List Char) : Option (List Char) :=
  let h := l.take 6
  if h.length = 6 ∧ h.all isHexCi ∧ (l.drop 6).head? = some ']' then some h else none

/-- One attempted match of `/\[#(?:to-)?([a-f0-9]\x7b6\x7d)\]/i` at the head
(greedy optional `to-`, with the regex's backtracking to the empty
alternative). -/
def tryTagAt (l : List Char) : Option (List Char) :=
  match l with
  | '[' :: '#' :: rest =>
    (match rest with
     | t :: o :: d :: r2 =>
       if jsLower t = 't' ∧ jsLower o = 'o' ∧ d = '-' then
         match hex6After r2 with
         | some h => some h
         | none => hex6After rest
       else hex6After rest
     | _ => hex6After rest)
  | _ => none

/-- Leftmost tag match. -/
def scanTag : List Char → Option (List Char)
  | [] => none
  | c :: cs =>
    match tryTagAt (c :: cs) with
    | some h => some h
    | none => scanTag cs

/-- Embedding of `extractSessionIdFromSubject`. -/
def extractSessionIdFromSubject (subject : String) : Option String :=
  (scanTag subject.data).map String.mk

/-- Embedding of `formatSessionTag`. -/
def formatSessionTag (sessionId : String) : String :=
  "[#" ++ SESSION_PREFIX ++ "-" ++ sessionId ++ "]"

structure SessionPaths where
  root : String
  workspace : String
  claudeHome : String
deriving DecidableEq, Repr

/-- Embedding of `getSessionPaths` (`config.sessionsPath` is the explicit base). -/
def getSessionPaths (sessionsPath agentId sessionId : String) : SessionPaths :=
  let root := sessionsPath ++ "/" ++ agentId ++ "/" ++ sessionId
  { root := root, workspace := root ++ "/workspace", claudeHome := root ++ "/claude-home" }

/-- The durable state the session store manipulates: existing directories,
existing files, and the persisted index. -/
structure FsState where
  dirs : List String
  files : List String
  index : SessionIndex
deriving DecidableEq, Repr

/-- Embedding of `fs.mkdir(..., recursive: true)` on an already-existing directory is a
no-op. -/
def mkdirRec (path : String) (dirs : List String) : List String :=
  if path ∈ dirs then dirs else path :: dirs

/-- Embedding of `findSessionByMessageId`. -/
def findSessionByMessageId (index : SessionIndex) (messageId : String) : Option Session :=
  match getA messageId index.byMessageId with
  | none => none
  | some sessionId =>
    match getA sessionId index.sessions with
    | none => none
    | some session => some session

/-- Embedding of `findSessionById`. -/
def findSessionById (index : SessionIndex) (sessionId : String) : Option Session :=
  getA sessionId index.sessions

structure CreateParams where
  agentId : String
  messageId : String
  subject : String
  sender : String
deriving DecidableEq, Repr

/-- Embedding of `createSession`: build the session record, create the directory pair
(`chmod`s do not change the modelled state), copy the baseline credential
when present (failure only logged), then register the session in the index
in one persisted write.  `sessionId` is the freshly generated id and `now`
the clock reading. -/
def createSessionFs (sessionsPath claudeSessionPath : String) (p : CreateParams)
    (sessionId : String) (now : Nat) (st : FsState) : Session × FsState :=
  let session : Session :=
    { id := sessionId, agentId := p.agentId,
      thread := { originalMessageId := p.messageId, messageIds := [p.messageId],
                  originalSubject := p.subject },
      sender := p.sender, createdAt := now, lastActivityAt := now }
  let paths := getSessionPaths sessionsPath p.agentId sessionId
  let dirs := mkdirRec paths.claudeHome (mkdirRec paths.workspace st.dirs)
  let credentialsSource := claudeSessionPath ++ "/.credentials.json"
  let credentialsTarget := paths.claudeHome ++ "/.credentials.json"
  let files := if credentialsSource ∈ st.files then credentialsTarget :: st.files else st.files
  let index : SessionIndex :=
    { sessions := setA sessionId session st.index.sessions,
      byMessageId := setA p.messageId sessionId st.index.byMessageId }
  (session, { dirs := dirs, files := files, index := index })

/-- Embedding of `addMessageToSession`: append the message id to the thread (no-op when
present), bump `lastActivityAt`, register the message id, one persisted
write; missing session throws. -/
def addMessageToSession (sessionId messageId : String) (now : Nat)
    (st : FsState) : Except String FsState :=
  match getA sessionId st.index.sessions with
  | none => .error ("Session not found: " ++ sessionId)
  | some session =>
    let session :=
      { session with
        thread :=
          { session.thread with
            messageIds :=
              if messageId ∈ session.thread.messageIds then session.thread.messageIds
              else session.thread.messageIds ++ [messageId] },
        lastActivityAt := now }
    .ok { st with
      index := { sessions := setA sessionId session st.index.sessions,
                 byMessageId := setA messageId sessionId st.index.byMessageId } }

structure GetOrCreateParams where
  agentId : String
  messageId : String
  inReplyTo : Option String
  subject : String
  sender : String
deriving DecidableEq, Repr

/-- Embedding of `getOrCreateSession`: reply-chain lookup first, then subject tag, then
create. -/
def getOrCreateSession (sessionsPath claudeSessionPath : String)
    (p : GetOrCreateParams) (sessionId : String) (now : Nat) (st : FsState) :
    Except String (Session × Bool × FsState) :=
  let fromReply : Option Session :=
    match p.inReplyTo with
    | some inReplyTo => findSessionByMessageId st.index inReplyTo
    | none => none
  match fromReply with
  | some existingSession =>
    (addMessageToSession existingSession.id p.messageId now st).map
      (fun st2 => (existingSession, false, st2))
  | none =>
    let fromTag : Option Session :=
      match extractSessionIdFromSubject p.subject with
      | some sid => findSessionById st.index sid
      | none => none
    match fromTag with
    | some existingSession =>
      (addMessageToSession existingSession.id p.messageId now st).map
        (fun st2 => (existingSession, false, st2))
    | none =>
      let cs := createSessionFs sessionsPath claudeSessionPath
        { agentId := p.agentId, messageId := p.messageId, subject := p.subject,
          sender := p.sender } sessionId now st
      .ok (cs.1, true, cs.2)

/-! ## Claim C7 -/

theorem getA_setA_self {α : Type} (k : String) (v : α) (l : List (String × α)) :
    getA k (setA k v l) = some v := by
  induction l with
  | nil => simp [setA, getA]
  | cons hd tl ih =>
    by_cases h : hd.1 = k
    · simp [setA, getA, h]
    · simp [setA, getA, h, ih]

theorem getA_setA_isSome {α : Type} (k : String) (v : α) (l : List (String × α))
    (h : (getA k l).isSome = true) (k' : String) :
    (getA k' (setA k v l)).isSome = (getA k' l).isSome := by
  induction l with
  | nil => simp [getA] at h
  | cons hd tl ih =>
    by_cases h1 : hd.1 = k
    · by_cases h2 : hd.1 = k'
      · simp [setA, getA, h1, h2, h1 ▸ h2.symm]
      · have : k ≠ k' := fun he => h2 (h1.trans he)
        simp [setA, getA, h1, h2, this]
    · have h' : (getA k tl).isSome = true := by
        simpa [getA, Ne.symm, show ¬(hd.1 = k) from h1] using h
      by_cases h2 : hd.1 = k'
      · have hkk : ¬(k' = k) := fun he => h1 (h2.trans he)
        simp [setA, getA, h1, h2, hkk]
      · simp [setA, getA, h1, h2, ih h']

/-- A successful `addMessageToSession` never adds or removes a session key. -/
theorem addMessageToSession_ok_keys (sid mid : String) (now : Nat) (st st' : FsState)
    (h : addMessageToSession sid mid now st = .ok st') :
    ∀ k, (getA k st'.index.sessions).isSome = (getA k st.index.sessions).isSome := by
  unfold addMessageToSession at h
  rcases hg : getA sid st.index.sessions with _ | s
  · rw [hg] at h
    simp at h
  · rw [hg] at h
    intro k
    rw [← Except.ok.inj h]
    exact getA_setA_isSome sid _ _ (by rw [hg]; rfl) k

/-- C7: a freshly created session is immediately resolvable by its first
message id, and a subsequent `getOrCreateSession` whose `inReplyTo` is that
message id returns the same session with `isNew = false`, creating no second
session (the set of indexed session ids is unchanged). -/
theorem c7_create_then_resolve_roundtrip
    (sessionsPath claudeSessionPath : String) (p : CreateParams)
    (sessionId : String) (now : Nat) (st : FsState) :
    findSessionByMessageId
        (createSessionFs sessionsPath claudeSessionPath p sessionId now st).2.index
        p.messageId =
      some (createSessionFs sessionsPath claudeSessionPath p sessionId now st).1 ∧
    (∀ (p2 : GetOrCreateParams) (sid2 : String) (now2 : Nat),
      p2.inReplyTo = some p.messageId →
      ∃ st2,
        getOrCreateSession sessionsPath claudeSessionPath p2 sid2 now2
            (createSessionFs sessionsPath claudeSessionPath p sessionId now st).2 =
          .ok ((createSessionFs sessionsPath claudeSessionPath p sessionId now st).1,
            false, st2) ∧
        (∀ k, (getA k st2.index.sessions).isSome =
          (getA k (createSessionFs sessionsPath claudeSessionPath p sessionId
            now st).2.index.sessions).isSome)) := by
  have hidx : (createSessionFs sessionsPath claudeSessionPath p sessionId now st).2.index =
      { sessions := setA sessionId
          (createSessionFs sessionsPath claudeSessionPath p sessionId now st).1
          st.index.sessions,
        byMessageId := setA p.messageId sessionId st.index.byMessageId } := rfl
  have hid : (createSessionFs sessionsPath claudeSessionPath p sessionId now st).1.id =
      sessionId := rfl
  have hfind : findSessionByMessageId
      (createSessionFs sessionsPath claudeSessionPath p sessionId now st).2.index
      p.messageId =
      some (createSessionFs sessionsPath claudeSessionPath p sessionId now st).1 := by
    unfold findSessionByMessageId
    rw [hidx]
    simp [getA_setA_self]
  refine ⟨hfind, ?_⟩
  intro p2 sid2 now2 hreply
  have hget : getA sessionId
      (createSessionFs sessionsPath claudeSessionPath p sessionId now st).2.index.sessions =
      some (createSessionFs sessionsPath claudeSessionPath p sessionId now st).1 := by
    rw [hidx]
    exact getA_setA_self _ _ _
  obtain ⟨stx, haddeq⟩ : ∃ stx, addMessageToSession
      (createSessionFs sessionsPath claudeSessionPath p sessionId now st).1.id p2.messageId
      now2 (createSessionFs sessionsPath claudeSessionPath p sessionId now st).2 =
      .ok stx := by
    unfold addMessageToSession
    rw [hid, hget]
    exact ⟨_, rfl⟩
  refine ⟨stx, ?_, ?_⟩
  · unfold getOrCreateSession
    rw [hreply]
    simp only [hfind, haddeq]
    rfl
  · exact addMessageToSession_ok_keys _ _ _ _ _ haddeq

/-- C7 witness: create a session in an empty store, then resolve a follow-up
message by `inReplyTo`. -/
theorem c7_create_then_resolve_roundtrip_witness :
    (findSessionByMessageId
        (createSessionFs "/s" "/c" ⟨"crm", "m1", "Subj", "al"⟩ "ab12cd" 5
          ⟨[], [], ⟨[], []⟩⟩).2.index "m1").map Session.id = some "ab12cd" ∧
    (∃ st2, getOrCreateSession "/s" "/c" ⟨"crm", "m2", some "m1", "Subj2", "al"⟩
        "ffffff" 9
        (createSessionFs "/s" "/c" ⟨"crm", "m1", "Subj", "al"⟩ "ab12cd" 5
          ⟨[], [], ⟨[], []⟩⟩).2 =
      .ok ((createSessionFs "/s" "/c" ⟨"crm", "m1", "Subj", "al"⟩ "ab12cd" 5
        ⟨[], [], ⟨[], []⟩⟩).1, false, st2)) := by
  have h := c7_create_then_resolve_roundtrip "/s" "/c" ⟨"crm", "m1", "Subj", "al"⟩
    "ab12cd" 5 ⟨[], [], ⟨[], []⟩⟩
  obtain ⟨st2, h2, _⟩ := h.2 ⟨"crm", "m2", some "m1", "Subj2", "al"⟩ "ffffff" 9 rfl
  exact ⟨by rw [h.1]; rfl, ⟨st2, h2⟩⟩

/-! ## Claim C8

One durable-state step of the session store: a completed `createSession`, a
`createSession` aborted after any of its effectful sub-steps (the two
`mkdir`s, the credential copy — the index write is last, so an abort before
it leaves the index untouched), or a completed `addMessageToSession`.  A
failed `addMessageToSession` (unknown session) and an abort before its single
index write leave the state unchanged and are covered by reflexivity of
`SessionStoreReach`. -/

inductive SessionStoreStep (sessionsPath claudeSessionPath : String) :
    FsState → FsState → Prop
  | createFull (p : CreateParams) (sessionId : String) (now : Nat) (st : FsState) :
      SessionStoreStep sessionsPath claudeSessionPath st
        (createSessionFs sessionsPath claudeSessionPath p sessionId now st).2
  | createAbortAfterFirstMkdir (p : CreateParams) (sessionId : String) (st : FsState) :
      SessionStoreStep sessionsPath claudeSessionPath st
        ⟨mkdirRec (getSessionPaths sessionsPath p.agentId sessionId).workspace st.dirs,
          st.files, st.index⟩
  | createAbortAfterSecondMkdir (p : CreateParams) (sessionId : String) (st : FsState) :
      SessionStoreStep sessionsPath claudeSessionPath st
        ⟨mkdirRec (getSessionPaths sessionsPath p.agentId sessionId).claudeHome
            (mkdirRec (getSessionPaths sessionsPath p.agentId sessionId).workspace st.dirs),
          st.files, st.index⟩
  | createAbortAfterCredentials (p : CreateParams) (sessionId : String) (st : FsState) :
      SessionStoreStep sessionsPath claudeSessionPath st
        ⟨mkdirRec (getSessionPaths sessionsPath p.agentId sessionId).claudeHome
            (mkdirRec (getSessionPaths sessionsPath p.agentId sessionId).workspace st.dirs),
          if claudeSessionPath ++ "/.credentials.json" ∈ st.files then
            ((getSessionPaths sessionsPath p.agentId sessionId).claudeHome ++
              "/.credentials.json") :: st.files
          else st.files, st.index⟩
  | addMsg (sessionId messageId : String) (now : Nat) (st st' : FsState)
      (h : addMessageToSession sessionId messageId now st = .ok st') :
      SessionStoreStep sessionsPath claudeSessionPath st st'

inductive SessionStoreReach (sessionsPath claudeSessionPath : String) :
    FsState → FsState → Prop
  | refl (st : FsState) : SessionStoreReach sessionsPath claudeSessionPath st st
  | tail (st st1 st2 : FsState)
      (hr : SessionStoreReach sessionsPath claudeSessionPath st st1)
      (hs : SessionStoreStep sessionsPath claudeSessionPath st1 st2) :
      SessionStoreReach sessionsPath claudeSessionPath st st2

/-- Every indexed session's directory pair exists on disk. -/
def DirsInvariant (sessionsPath : String) (st : FsState) : Prop :=
  ∀ sid s, getA sid st.index.sessions = some s →
    (getSessionPaths sessionsPath s.agentId sid).workspace ∈ st.dirs ∧
    (getSessionPaths sessionsPath s.agentId sid).claudeHome ∈ st.dirs

theorem mem_mkdirRec (d path : String) (dirs : List String) (h : d ∈ dirs) :
    d ∈ mkdirRec path dirs := by
  unfold mkdirRec
  split
  · exact h
  · exact List.mem_cons_of_mem _ h

theorem mem_mkdirRec_self (path : String) (dirs : List String) :
    path ∈ mkdirRec path dirs := by
  unfold mkdirRec
  split
  · assumption
  · exact List.mem_cons_self _ _

/-- Directories are never removed by a step. -/
theorem sessionStoreStep_dirs_mono {sp cp : String} {st st' : FsState}
    (h : SessionStoreStep sp cp st st') (d : String) (hd : d ∈ st.dirs) : d ∈ st'.dirs := by
  cases h with
  | createFull p sessionId now =>
    exact mem_mkdirRec _ _ _ (mem_mkdirRec _ _ _ hd)
  | createAbortAfterFirstMkdir p sessionId =>
    exact mem_mkdirRec _ _ _ hd
  | createAbortAfterSecondMkdir p sessionId =>
    exact mem_mkdirRec _ _ _ (mem_mkdirRec _ _ _ hd)
  | createAbortAfterCredentials p sessionId =>
    exact mem_mkdirRec _ _ _ (mem_mkdirRec _ _ _ hd)
  | addMsg sessionId messageId now stq stq2 hadd =>
    unfold addMessageToSession at hadd
    rcases hg : getA sessionId st.index.sessions with _ | s
    · rw [hg] at hadd
      simp at hadd
    · rw [hg] at hadd
      rw [← Except.ok.inj hadd]
      exact hd

theorem sessionStoreReach_dirs_mono {sp cp : String} {st st' : FsState}
    (h : SessionStoreReach sp cp st st') (d : String) (hd : d ∈ st.dirs) : d ∈ st'.dirs := by
  induction h with
  | refl => exact hd
  | tail st1 st2 hr hs ih => exact sessionStoreStep_dirs_mono hs d ih

theorem getA_setA_ne {α : Type} (k k' : String) (v : α) (l : List (String × α))
    (h : ¬k' = k) : getA k' (setA k v l) = getA k' l := by
  have h2 : ¬k = k' := fun he => h he.symm
  induction l with
  | nil => simp [setA, getA, h2]
  | cons hd tl ih =>
    by_cases h1 : hd.1 = k
    · simp [setA, getA, h1, h2]
    · simp only [setA, getA, if_neg h1]
      split
      · rfl
      · exact ih

/-- One step preserves the directory invariant. -/
theorem sessionStoreStep_invariant {sp cp : String} {st st' : FsState}
    (h : SessionStoreStep sp cp st st') (hinv : DirsInvariant sp st) :
    DirsInvariant sp st' := by
  cases h with
  | createFull p sessionId now =>
    intro sid s hget
    have hidx : (createSessionFs sp cp p sessionId now st).2.index.sessions =
        setA sessionId (createSessionFs sp cp p sessionId now st).1 st.index.sessions := rfl
    rw [hidx] at hget
    by_cases hsid : sid = sessionId
    · rw [hsid] at hget ⊢
      rw [getA_setA_self] at hget
      have hs : s = (createSessionFs sp cp p sessionId now st).1 := (Option.some.inj hget).symm
      have hagent : s.agentId = p.agentId := by rw [hs]; rfl
      rw [hagent]
      constructor
      · exact mem_mkdirRec _ _ _ (mem_mkdirRec_self _ _)
      · exact mem_mkdirRec_self _ _
    · have hget' : getA sid st.index.sessions = some s := by
        rw [← getA_setA_ne sessionId sid
          (createSessionFs sp cp p sessionId now st).1 st.index.sessions hsid]
        exact hget
      obtain ⟨h1, h2⟩ := hinv sid s hget'
      exact ⟨mem_mkdirRec _ _ _ (mem_mkdirRec _ _ _ h1),
        mem_mkdirRec _ _ _ (mem_mkdirRec _ _ _ h2)⟩
  | createAbortAfterFirstMkdir p sessionId =>
    intro sid s hget
    obtain ⟨h1, h2⟩ := hinv sid s hget
    exact ⟨mem_mkdirRec _ _ _ h1, mem_mkdirRec _ _ _ h2⟩
  | createAbortAfterSecondMkdir p sessionId =>
    intro sid s hget
    obtain ⟨h1, h2⟩ := hinv sid s hget
    exact ⟨mem_mkdirRec _ _ _ (mem_mkdirRec _ _ _ h1),
      mem_mkdirRec _ _ _ (mem_mkdirRec _ _ _ h2)⟩
  | createAbortAfterCredentials p sessionId =>
    intro sid s hget
    obtain ⟨h1, h2⟩ := hinv sid s hget
    exact ⟨mem_mkdirRec _ _ _ (mem_mkdirRec _ _ _ h1),
      mem_mkdirRec _ _ _ (mem_mkdirRec _ _ _ h2)⟩
  | addMsg sessionId messageId now stq stq2 hadd =>
    intro sid s hget
    unfold addMessageToSession at hadd
    rcases hg : getA sessionId st.index.sessions with _ | s0
    · rw [hg] at hadd
      simp at hadd
    · rw [hg] at hadd
      have hst' := (Except.ok.inj hadd).symm
      subst hst'
      simp only at hget
      by_cases hsid : sid = sessionId
      · rw [hsid] at hget ⊢
        rw [getA_setA_self] at hget
        have hs : s.agentId = s0.agentId := by
          rw [← Option.some.inj hget]
        rw [hs]
        exact hinv sessionId s0 hg
      · rw [getA_setA_ne sessionId sid _ st.index.sessions hsid] at hget
        exact hinv sid s hget

/-- C8: over every reachable durable state — any interleaving of
`createSession` and `addMessageToSession` operations, including operations
that abort partway — every session registered in the index has both of its
directories already created, and a given directory is created (absent before
a step, present after) by at most one step of any run. -/
theorem c8_indexed_sessions_have_directories
    (sp cp : String) (st0 st1 : FsState)
    (h0 : DirsInvariant sp st0)
    (hreach : SessionStoreReach sp cp st0 st1) :
    DirsInvariant sp st1 ∧
    (∀ (d : String) (st2 st3 st4 : FsState),
      SessionStoreStep sp cp st1 st2 → SessionStoreReach sp cp st2 st3 →
      SessionStoreStep sp cp st3 st4 →
      d ∉ st1.dirs → d ∈ st2.dirs → d ∉ st3.dirs → False) := by
  constructor
  · induction hreach with
    | refl => exact h0
    | tail st1 st2 hr hs ih => exact sessionStoreStep_invariant hs ih
  · intro d st2 st3 st4 hstep1 hr23 hstep2 hd1 hd2 hd3
    exact hd3 (sessionStoreReach_dirs_mono hr23 d hd2)

/-- C8 witness: a two-operation run (a completed create, then an aborted
create) from an empty store; the created session's directories exist in the
final state. -/
theorem c8_indexed_sessions_have_directories_witness :
    DirsInvariant "/s"
      { (createSessionFs "/s" "/c" ⟨"crm", "m1", "Subj", "al"⟩ "ab12cd" 5
          ⟨[], [], ⟨[], []⟩⟩).2 with
        dirs := mkdirRec (getSessionPaths "/s" "crm" "ffffff").workspace
          (createSessionFs "/s" "/c" ⟨"crm", "m1", "Subj", "al"⟩ "ab12cd" 5
            ⟨[], [], ⟨[], []⟩⟩).2.dirs } :=
  (c8_indexed_sessions_have_directories "/s" "/c" ⟨[], [], ⟨[], []⟩⟩ _
    (fun sid s hget => by simp [getA] at hget)
    (SessionStoreReach.tail _ _ _
      (SessionStoreReach.tail _ _ _ (SessionStoreReach.refl _)
        (SessionStoreStep.createFull ⟨"crm", "m1", "Subj", "al"⟩ "ab12cd" 5 _))
      (SessionStoreStep.createAbortAfterFirstMkdir ⟨"crm", "m1", "Subj", "al"⟩
        "ffffff" _))).1

/-! ## Claim C10 -/

theorem hexDigitChar_lowerHex (n : Nat) : isLowerHexDigit (hexDigitChar n) = true := by
  unfold hexDigitChar
  rcases Nat.lt_or_ge n 16 with h | h
  · interval_cases n <;> decide
  · rw [List.getD_eq_default]
    · decide
    · simpa [hexChars] using h

/-- Every generated session id is exactly six lowercase hex characters. -/
theorem generateSessionId_shape (b0 b1 b2 : Fin 256) :
    (generateSessionId b0 b1 b2).data.length = 6 ∧
    ∀ c ∈ (generateSessionId b0 b1 b2).data, isLowerHexDigit c = true := by
  constructor
  · simp [generateSessionId, byteToHex]
  · intro c hc
    simp only [generateSessionId, byteToHex, List.cons_append, List.nil_append,
      List.mem_cons, List.not_mem_nil, or_false] at hc
    rcases hc with h | h | h | h | h | h <;> (rw [h]; exact hexDigitChar_lowerHex _)

theorem isLowerHex_isHexCi (c : Char) (h : isLowerHexDigit c = true) : isHexCi c = true := by
  unfold isLowerHexDigit at h
  unfold isHexCi
  simp only [Bool.or_eq_true] at h ⊢
  rcases h with h1 | h1
  · exact Or.inl (Or.inl h1)
  · exact Or.inr h1

theorem hex6After_exact (w t : List Char) (hlen : w.length = 6)
    (hhex : ∀ c ∈ w, isHexCi c = true) :
    hex6After (w ++ ']' :: t) = some w := by
  unfold hex6After
  have htake : (w ++ ']' :: t).take 6 = w := by
    rw [← hlen]
    exact List.take_left w (']' :: t)
  have hdrop : (w ++ ']' :: t).drop 6 = ']' :: t := by
    rw [← hlen]
    exact List.drop_left w (']' :: t)
  rw [htake, hdrop]
  rw [if_pos ⟨hlen, List.all_eq_true.mpr hhex, rfl⟩]

theorem tryTagAt_tag (w t : List Char) (hlen : w.length = 6)
    (hhex : ∀ c ∈ w, isHexCi c = true) :
    tryTagAt ('[' :: '#' :: 't' :: 'o' :: '-' :: (w ++ ']' :: t)) = some w := by
  have h1 : tryTagAt ('[' :: '#' :: 't' :: 'o' :: '-' :: (w ++ ']' :: t)) =
      (match hex6After (w ++ ']' :: t) with
       | some h => some h
       | none => hex6After ('t' :: 'o' :: '-' :: (w ++ ']' :: t))) := rfl
  rw [h1, hex6After_exact w t hlen hhex]

theorem scanTag_cons_of_some (c : Char) (cs w : List Char)
    (h : tryTagAt (c :: cs) = some w) : scanTag (c :: cs) = some w := by
  simp [scanTag, h]

/-- The scan passes over a region in which no tag match starts. -/
theorem scanTag_append_none (xs ys : List Char)
    (h : ∀ i, i < xs.length → tryTagAt (List.drop i (xs ++ ys)) = none) :
    scanTag (xs ++ ys) = scanTag ys := by
  induction xs with
  | nil => rfl
  | cons c cs ih =>
    have h0 := h 0 (by simp)
    rw [List.drop_zero] at h0
    show scanTag (c :: (cs ++ ys)) = scanTag ys
    rw [scanTag]
    rw [show ((c :: cs) ++ ys : List Char) = c :: (cs ++ ys) from rfl] at h0
    rw [h0]
    exact ih (fun i hi => by
      have := h (i + 1) (by simpa using Nat.succ_lt_succ hi)
      simpa using this)

/-- C10 counterexample: a subject whose earlier text contains a tag-shaped
substring; extraction returns the decoy, not the embedded session tag, so a
tag does NOT survive embedding anywhere in a subject string. -/
theorem c10_tag_embedding_counterexample :
    extractSessionIdFromSubject ("[#aaaaaa] Re: " ++ formatSessionTag "bcdef0") =
      some "aaaaaa" ∧
    (some "aaaaaa" : Option String) ≠ some "bcdef0" ∧
    ("bcdef0" : String).data.length = 6 ∧
    (∀ c ∈ ("bcdef0" : String).data, isLowerHexDigit c = true) := by
  refine ⟨by decide, by decide, by decide, by decide⟩

/-- C10 (amended): `generateSessionId` always yields exactly six lowercase
hex characters; for every such id, `extractSessionIdFromSubject` recovers it
from `formatSessionTag id`, and from any embedding `pre ++ tag ++ post`
provided no tag-shaped match starts inside the preceding text (forced by the
counterexample: extraction returns the leftmost tag-shaped substring). -/
theorem c10_session_tag_roundtrip_amended
    (b0 b1 b2 : Fin 256) (id pre post : String)
    (hlen : id.data.length = 6)
    (hhex : ∀ c ∈ id.data, isLowerHexDigit c = true)
    (hpre : ∀ i, i < pre.data.length →
      tryTagAt (List.drop i (pre ++ formatSessionTag id ++ post).data) = none) :
    (generateSessionId b0 b1 b2).data.length = 6 ∧
    (∀ c ∈ (generateSessionId b0 b1 b2).data, isLowerHexDigit c = true) ∧
    extractSessionIdFromSubject (formatSessionTag id) = some id ∧
    extractSessionIdFromSubject (pre ++ formatSessionTag id ++ post) = some id := by
  obtain ⟨hglen, hghex⟩ := generateSessionId_shape b0 b1 b2
  have hhexci : ∀ c ∈ id.data, isHexCi c = true :=
    fun c hc => isLowerHex_isHexCi c (hhex c hc)
  have hdata : (formatSessionTag id).data =
      '[' :: '#' :: 't' :: 'o' :: '-' :: (id.data ++ [']']) := by
    show ("[#" ++ SESSION_PREFIX ++ "-" ++ id ++ "]").data = _
    simp [ SESSION_PREFIX]
  refine ⟨hglen, hghex, ?_, ?_⟩
  · unfold extractSessionIdFromSubject
    rw [hdata]
    rw [scanTag_cons_of_some _ _ id.data (tryTagAt_tag id.data [] hlen hhexci)]
    rfl
  · unfold extractSessionIdFromSubject
    have hbig : (pre ++ formatSessionTag id ++ post).data =
        pre.data ++ ('[' :: '#' :: 't' :: 'o' :: '-' :: (id.data ++ ']' :: post.data)) := by
      show pre.data ++ (formatSessionTag id).data ++ post.data = _
      rw [hdata]
      simp
    rw [hbig]
    rw [scanTag_append_none pre.data _ (fun i hi => by
      have := hpre i hi
      rw [hbig] at this
      exact this)]
    rw [scanTag_cons_of_some _ _ id.data (tryTagAt_tag id.data post.data hlen hhexci)]
    rfl

/-- C10 witness: a concrete generated id embedded after an ordinary
reply-style subject text. -/
theorem c10_session_tag_roundtrip_amended_witness :
    (generateSessionId ⟨171, by decide⟩ ⟨1, by decide⟩ ⟨35, by decide⟩).data.length = 6 ∧
    extractSessionIdFromSubject (formatSessionTag "ab0123") = some "ab0123" ∧
    extractSessionIdFromSubject ("Re: " ++ formatSessionTag "ab0123" ++ " hello") =
      some "ab0123" := by
  have h := c10_session_tag_roundtrip_amended ⟨171, by decide⟩ ⟨1, by decide⟩ ⟨35, by decide⟩
    "ab0123" "Re: " " hello" (by decide) (by decide) (by decide)
  exact ⟨h.1, h.2.2.1, h.2.2.2⟩

/-! ## Execution orchestrator (`src/execution/unified-executor.ts`, `executeTask`)

The docker runtime is a behaviour parameter: whether `createContainer` /
`start` throw, when (if ever) the process exits, its status code and its
captured logs.  `Promise.race` of the wait against the `setTimeout` rejection
is modelled by comparing the exit time with `timeoutMs`; the rejection is the
thrown `Error('Agent timeout exceeded')` caught by the surrounding catch,
which stop-and-removes the container (swallowing secondary errors), records
a failed status and rethrows as `AgentExecutionError`.  Session-path
resolution and MCP injection do not touch the fields modelled here. -/

structure ResourceLimits where
  memoryMb : Nat
  cpuCores : Nat
  timeoutMs : Nat
  maxTurns : Nat
deriving DecidableEq, Repr

/-- The `ExecutionRequest` fields `executeTask` reads on the modelled paths. -/
structure ExecRequest where
  executionId : String
  prompt : String
  agentId : String
  sessionId : Option String
  useResume : Bool
  resources : ResourceLimits
  source : String
deriving DecidableEq, Repr

/-- Behaviour of the container runtime for one execution. -/
structure ContainerBehavior where
  createError : Option String
  startError : Option String
  exitTime : Option Nat
  statusCode : Int
  logs : String
deriving DecidableEq, Repr

structure AgentExecutionErr where
  message : String
  executionId : String
deriving DecidableEq, Repr

/-- Observable outcome of one `executeTask` call: the returned/thrown value,
the final registry entry, and the container lifecycle facts. -/
structure ExecOutcome where
  result : Except AgentExecutionErr ExecutionResult
  finalStatus : String
  statusResult : Option ExecutionResult
  containerCreated : Bool
  containerRemoved : Bool
  waitedMs : Option Nat
deriving Repr

/-- The catch-block: best-effort stop-and-remove, status `failed` with
`success: false`, rethrow as `AgentExecutionError`. -/
def executeTaskCatch (req : ExecRequest) (msg : String) (created : Bool)
    (waited : Option Nat) : ExecOutcome :=
  { result := .error { message := msg, executionId := req.executionId },
    finalStatus := "failed",
    statusResult := some
      ({ success := false, summary := "Execution failed", filesModified := [],
         error := some msg }),
    containerCreated := created,
    containerRemoved := created,
    waitedMs := waited }

/-- Embedding of `executeTask`. -/
def executeTask (dockerImage : String)
    (parseA : String → Option AgentResultJson) (parseS : String → Option SdkTaskResultJson)
    (req : ExecRequest) (cb : ContainerBehavior) : ExecOutcome :=
  match cb.createError with
  | some e => executeTaskCatch req e false none
  | none =>
    match cb.startError with
    | some e => executeTaskCatch req e true none
    | none =>
      let timedOut : Bool :=
        match cb.exitTime with
        | none => true
        | some t => decide (req.resources.timeoutMs < t)
      if timedOut then
        executeTaskCatch req "Agent timeout exceeded" true (some req.resources.timeoutMs)
      else
        let output := cb.logs
        let result : ExecutionResult :=
          if cb.statusCode != 0 then
            { success := false, summary := "Agent exited with error", filesModified := [],
              error := some (jsSliceFromEnd 2000 output),
              rawOutput := some (jsSliceFromEnd 5000 output) }
          else if jsIncludes "sandbox" dockerImage then parseAgentOutput parseA output
          else parseSdkOutput parseS output
        { result := .ok result,
          finalStatus := if result.success then "completed" else "failed",
          statusResult := some result,
          containerCreated := true,
          containerRemoved := true,
          waitedMs := some (cb.exitTime.getD 0) }

/-! ## Claim C4 -/

/-- C4: when the sandboxed process has not exited by `timeoutMs`, the
orchestrator stops waiting at `timeoutMs`, force-removes the container (no
leaked handle), records the execution as failed with `success: false` and the
timeout-specific message `Agent timeout exceeded`, and propagates an
`AgentExecutionError` instead of returning a result. -/
theorem c4_timeout_fails_and_removes_container
    (dockerImage : String)
    (parseA : String → Option AgentResultJson) (parseS : String → Option SdkTaskResultJson)
    (req : ExecRequest) (cb : ContainerBehavior)
    (hcreate : cb.createError = none) (hstart : cb.startError = none)
    (hnoexit : ∀ t, cb.exitTime = some t → req.resources.timeoutMs < t) :
    executeTask dockerImage parseA parseS req cb =
      { result :=
          .error { message := "Agent timeout exceeded", executionId := req.executionId },
        finalStatus := "failed",
        statusResult := some
          ({ success := false, summary := "Execution failed", filesModified := [],
             error := some "Agent timeout exceeded" }),
        containerCreated := true,
        containerRemoved := true,
        waitedMs := some req.resources.timeoutMs } := by
  unfold executeTask
  rw [hcreate, hstart]
  have htimed : (match cb.exitTime with
      | none => true
      | some t => decide (req.resources.timeoutMs < t)) = true := by
    rcases he : cb.exitTime with _ | t
    · rfl
    · exact decide_eq_true (hnoexit t he)
  rw [htimed]
  rfl

/-- C4 witness: a request with a 300000 ms budget against a container that
never exits. -/
theorem c4_timeout_fails_and_removes_container_witness :
    executeTask "sdk-image" (fun _ => none) (fun _ => none)
      ⟨"exec-1", "do the task", "crm", none, false, ⟨2048, 2, 300000, 50⟩, "api"⟩
      ⟨none, none, none, 0, ""⟩ =
      { result := .error { message := "Agent timeout exceeded", executionId := "exec-1" },
        finalStatus := "failed",
        statusResult := some
          ({ success := false, summary := "Execution failed", filesModified := [],
             error := some "Agent timeout exceeded" }),
        containerCreated := true,
        containerRemoved := true,
        waitedMs := some 300000 } :=
  c4_timeout_fails_and_removes_container "sdk-image" (fun _ => none) (fun _ => none)
    ⟨"exec-1", "do the task", "crm", none, false, ⟨2048, 2, 300000, 50⟩, "api"⟩
    ⟨none, none, none, 0, ""⟩ rfl rfl (fun t ht => by simp at ht)

end TeamOrange
